import Mathlib

/-!
The boost coordination engine of `cpu_input_boost`.

A shallow embedding of `drivers/cpufreq/cpu_input_boost.c`.

* `unsigned long` is a 64-bit word (arm64): jiffies instants and timer deadlines are
  natural numbers reduced modulo `2 ^ 64` wherever the C code adds to them.
* The driver state `struct boost_drv` is passed explicitly; every operation runs to
  completion before the next one starts (sequential interleaving of whole operations).
* Every reading of `jiffies` is an argument: an operation starts at `now`, and the
  functions that read the clock a second time before arming the max-unboost work
  take the ticks elapsed in between as `skew`.
* `wake_up(&b->boost_waitq)` is recorded by counting the calls in `boost_waitq`.
* Kernel facilities used by the driver but defined outside the two source files
  (bit operations, jiffies comparison, delayed work, cpumasks) are modelled next to
  their first use; build-time constants are fields of `Env` and `Params`.
-/

namespace CpuInputBoost

/-! ## Machine words and kernel primitives -/

/-- Number of values of an `unsigned long` (64-bit kernel). -/
def ULONG_MOD : Nat := 2 ^ 64

/-- Smallest value whose reinterpretation as `long` is negative. -/
def LONG_SIGN : Nat := 2 ^ 63

/-- Modelled from the spec: `time_after(a, b)` of `include/linux/jiffies.h` (a header
of this kernel tree that is not among the source files), "instant `a` is later than
instant `b`". The kernel compares wrapping tick counters by the sign of the 64-bit
difference, `(long)(b - a) < 0`. -/
def time_after (a b : Nat) : Bool :=
  decide (LONG_SIGN ≤ (b % ULONG_MOD + (ULONG_MOD - a % ULONG_MOD)) % ULONG_MOD)

/-- Modelled from the spec: `time_before(a, b)` is `time_after(b, a)` (same header). -/
def time_before (a b : Nat) : Bool := time_after b a

/-- Modelled from the spec: `test_bit(nr, &word)` of the kernel bit operations (not
among the source files): whether bit `nr` of the state register is set. -/
def test_bit (nr : Nat) (word : Nat) : Bool := word.testBit nr

/-- Modelled from the spec: `set_bit(nr, &word)`, the atomic `word |= 1UL << nr`. -/
def set_bit (nr : Nat) (word : Nat) : Nat := word ||| (1 <<< nr)

/-- Modelled from the spec: `clear_bit(nr, &word)`, the atomic `word &= ~(1UL << nr)`;
the bits of `word` that lie in the mask are removed from `word`. -/
def clear_bit (nr : Nat) (word : Nat) : Nat := word ^^^ (word &&& (1 <<< nr))

/-- Modelled from the spec: `cpumask_test_cpu(cpu, mask)`; a cpumask is a bitmap
indexed by CPU number. -/
def cpumask_test_cpu (cpu : Nat) (mask : Nat) : Bool := mask.testBit cpu

/-- Return value of every notifier callback of the driver (`NOTIFY_OK`). -/
def NOTIFY_OK : Nat := 1

/-! ## Data model -/

/-- Bit numbers of `boost_drv.state` (the anonymous `enum` of the driver). -/
def SCREEN_OFF : Nat := 0

/-- Bit 1 of `boost_drv.state`. -/
def INPUT_BOOST : Nat := 1

/-- Bit 2 of `boost_drv.state`. -/
def MAX_BOOST : Nat := 2

/-- Bit 3 of `boost_drv.state`. -/
def WAKE_BOOST : Nat := 3

/-- Modelled from the spec: `struct delayed_work` of the kernel workqueue (not among
the source files), "a delayed, cancellable, reschedulable task": whether it is
pending and the instant its timer is armed for. -/
structure delayed_work where
  pending : Bool
  expires : Nat
deriving DecidableEq, Repr

/-- The driver state, `struct boost_drv` (notifier blocks omitted: they hold no
mutable data). `boost_waitq` counts the `wake_up` calls made on the wait queue. -/
structure boost_drv where
  input_unboost : delayed_work
  max_unboost : delayed_work
  boost_waitq : Nat
  max_boost_expires : Nat
  state : Nat
  last_input_jiffies : Nat
deriving DecidableEq, Repr

/-- The static initialiser `boost_drv_g`: no work pending, every other field zero. -/
def boost_drv_g : boost_drv :=
  { input_unboost := { pending := false, expires := 0 }
    max_unboost := { pending := false, expires := 0 }
    boost_waitq := 0
    max_boost_expires := 0
    state := 0
    last_input_jiffies := 0 }

/-- The module parameters of the driver (all runtime-tunable). -/
structure Params where
  input_boost_freq_lp : Nat
  input_boost_freq_hp : Nat
  max_boost_freq_lp : Nat
  max_boost_freq_hp : Nat
  idle_min_freq_lp : Nat
  idle_min_freq_hp : Nat
  remove_input_boost_freq_lp : Nat
  remove_input_boost_freq_perf : Nat
  input_boost_duration : Nat
  wake_boost_duration : Nat

/-- What the driver reads from the rest of the kernel: the tick conversion
`msecs_to_jiffies`, the two cluster masks, the battery-saver flag and the notifier
action code `CPUFREQ_ADJUST`. None of them is defined in the driver's source file,
so they are parameters. -/
structure Env where
  msecs_to_jiffies : Nat → Nat
  cpu_lp_mask : Nat
  cpu_perf_mask : Nat
  is_battery_saver_on : Bool
  CPUFREQ_ADJUST : Nat

/-- The member `cpuinfo` of `struct cpufreq_policy`: hardware frequency bounds. -/
structure cpufreq_cpuinfo where
  max_freq : Nat
  min_freq : Nat
deriving DecidableEq, Repr

/-- The fields of `struct cpufreq_policy` the driver reads or writes. -/
structure cpufreq_policy where
  cpu : Nat
  min : Nat
  max : Nat
  cpuinfo : cpufreq_cpuinfo
deriving DecidableEq, Repr

/-! ## Policy decision function -/

/-- Source: `get_input_boost_freq`. -/
def get_input_boost_freq (e : Env) (c : Params) (policy : cpufreq_policy) : Nat :=
  let freq :=
    if cpumask_test_cpu policy.cpu e.cpu_lp_mask then
      max c.input_boost_freq_lp c.remove_input_boost_freq_lp
    else
      max c.input_boost_freq_hp c.remove_input_boost_freq_perf
  min freq policy.max

/-- Source: `get_max_boost_freq`. -/
def get_max_boost_freq (e : Env) (c : Params) (policy : cpufreq_policy) : Nat :=
  let freq :=
    if cpumask_test_cpu policy.cpu e.cpu_lp_mask then c.max_boost_freq_lp
    else c.max_boost_freq_hp
  min freq policy.max

/-- Source: `get_min_freq`. -/
def get_min_freq (e : Env) (c : Params) (b : boost_drv) (policy : cpufreq_policy) : Nat :=
  let freq :=
    if cpumask_test_cpu policy.cpu e.cpu_lp_mask && test_bit SCREEN_OFF b.state then
      c.idle_min_freq_lp
    else if cpumask_test_cpu policy.cpu e.cpu_perf_mask && test_bit SCREEN_OFF b.state then
      c.idle_min_freq_hp
    else if cpumask_test_cpu policy.cpu e.cpu_lp_mask && !test_bit SCREEN_OFF b.state then
      c.remove_input_boost_freq_lp
    else
      c.remove_input_boost_freq_perf
  max freq policy.cpuinfo.min_freq

/-- Source: `cpu_notifier_cb`. Returns the notifier result and the policy as the
callback leaves it. -/
def cpu_notifier_cb (e : Env) (c : Params) (b : boost_drv) (action : Nat)
    (policy : cpufreq_policy) : Nat × cpufreq_policy :=
  if action != e.CPUFREQ_ADJUST then
    (NOTIFY_OK, policy)
  else if e.is_battery_saver_on then
    (NOTIFY_OK, { policy with min := policy.cpuinfo.min_freq })
  else if test_bit WAKE_BOOST b.state then
    (NOTIFY_OK, { policy with min := get_max_boost_freq e c policy })
  else if e.is_battery_saver_on || test_bit SCREEN_OFF b.state then
    (NOTIFY_OK, { policy with min := get_min_freq e c b policy })
  else if test_bit MAX_BOOST b.state then
    (NOTIFY_OK, { policy with min := get_max_boost_freq e c policy })
  else if test_bit INPUT_BOOST b.state then
    (NOTIFY_OK, { policy with min := get_input_boost_freq e c policy })
  else
    (NOTIFY_OK, { policy with min := get_min_freq e c b policy })

/-- The domain of `policy` is a low-power domain: its CPU is in `cpu_lp_mask`. -/
def is_lp_domain (e : Env) (policy : cpufreq_policy) : Bool :=
  cpumask_test_cpu policy.cpu e.cpu_lp_mask

/-- The domain of `policy` is a high-performance domain: its CPU is in
`cpu_perf_mask` and not in `cpu_lp_mask`. -/
def is_hp_domain (e : Env) (policy : cpufreq_policy) : Bool :=
  !cpumask_test_cpu policy.cpu e.cpu_lp_mask && cpumask_test_cpu policy.cpu e.cpu_perf_mask

/-! ## Event ingest API and expiry timers -/

/-- Modelled from the spec: `wake_up(&b->boost_waitq)`, "signal the worker"; the
signal is recorded by counting it. -/
def wake_up (b : boost_drv) : boost_drv :=
  { b with boost_waitq := b.boost_waitq + 1 }

/-- Modelled from the spec: `mod_delayed_work(wq, dwork, delay)` of the kernel
workqueue (not among the source files): "rescheduling a pending task atomically
replaces its fire time". The work is left pending with its timer armed for
`jiffies + delay`; the result is `true` when the work was already pending and
`false` when it was idle. -/
def mod_delayed_work (now : Nat) (dwork : delayed_work) (delay : Nat) : Bool × delayed_work :=
  (dwork.pending, { pending := true, expires := (now + delay) % ULONG_MOD })

/-- Modelled from the spec: a pending delayed work is due once its deadline is no
longer in the future (`!time_before(jiffies, expires)`). -/
def delayed_work_due (now : Nat) (dwork : delayed_work) : Bool :=
  dwork.pending && !time_before now dwork.expires

/-- Modelled from the spec: `atomic_long_read`. -/
def atomic_long_read (v : Nat) : Nat := v

/-- Modelled from the spec: `atomic_long_cmpxchg(&v, old, new)`: the value found in
`v`, and the contents of `v` afterwards (`new` when the value found was `old`). -/
def atomic_long_cmpxchg (v old new : Nat) : Nat × Nat :=
  (v, if v == old then new else v)

/-- Source: `__cpu_input_boost_kick`; `now` is the value of `jiffies`. -/
def __cpu_input_boost_kick (e : Env) (c : Params) (now : Nat) (b : boost_drv) : boost_drv :=
  if test_bit SCREEN_OFF b.state then b
  else if c.input_boost_duration == 0 then b
  else
    let b1 := { b with state := set_bit INPUT_BOOST b.state }
    let r := mod_delayed_work now b1.input_unboost (e.msecs_to_jiffies c.input_boost_duration)
    let b2 := { b1 with input_unboost := r.2 }
    if !r.1 then wake_up b2 else b2

/-- Source: `cpu_input_boost_kick`. -/
def cpu_input_boost_kick (e : Env) (c : Params) (now : Nat) (b : boost_drv) : boost_drv :=
  __cpu_input_boost_kick e c now b

/-- How the compare-and-swap loop of `__cpu_input_boost_kick_max` ends: by the early
`return` (a longer boost is in effect) or by leaving the loop after a successful
exchange, with the new contents of `max_boost_expires`. -/
inductive cas_outcome where
  | skipped
  | stored (expires : Nat)
deriving DecidableEq, Repr

/-- Source: the `do { ... } while (atomic_long_cmpxchg(...) != curr_expires)` loop of
`__cpu_input_boost_kick_max`, on the contents `v` of `max_boost_expires`. Each
iteration costs one unit of fuel; `none` means the fuel ran out. -/
def max_boost_expires_loop (now boost_jiffies : Nat) : Nat → Nat → Option cas_outcome
  | 0, _ => none
  | fuel + 1, v =>
    let curr_expires := atomic_long_read v
    let new_expires := (now + boost_jiffies) % ULONG_MOD
    if time_after curr_expires new_expires then some cas_outcome.skipped
    else
      let r := atomic_long_cmpxchg v curr_expires new_expires
      if r.1 != curr_expires then max_boost_expires_loop now boost_jiffies fuel r.2
      else some (cas_outcome.stored r.2)

/-- Source: `__cpu_input_boost_kick_max`. The function reads `jiffies` twice: in the
loop, for `new_expires` (value `now`), and later inside `mod_delayed_work`, which is
given only the relative delay `boost_jiffies` and arms the timer from its own read of
`jiffies`; `skew` is the number of ticks by which the clock has advanced between the
two reads. -/
def __cpu_input_boost_kick_max (fuel : Nat) (e : Env) (now : Nat) (skew : Nat)
    (b : boost_drv) (duration_ms : Nat) : Option boost_drv :=
  let boost_jiffies := e.msecs_to_jiffies duration_ms
  match max_boost_expires_loop now boost_jiffies fuel b.max_boost_expires with
  | none => none
  | some cas_outcome.skipped => some b
  | some (cas_outcome.stored v) =>
    let b1 := { b with max_boost_expires := v, state := set_bit MAX_BOOST b.state }
    let r := mod_delayed_work (now + skew) b1.max_unboost boost_jiffies
    let b2 := { b1 with max_unboost := r.2 }
    some (if !r.1 then wake_up b2 else b2)

/-- Source: `cpu_input_boost_kick_max`; `now` and `skew` as in
`__cpu_input_boost_kick_max`. -/
def cpu_input_boost_kick_max (fuel : Nat) (e : Env) (now : Nat) (skew : Nat)
    (b : boost_drv) (duration_ms : Nat) : Option boost_drv :=
  if test_bit SCREEN_OFF b.state then some b
  else __cpu_input_boost_kick_max fuel e now skew b duration_ms

/-- Source: `__cpu_input_boost_kick_wake`; `now` and `skew` as in
`__cpu_input_boost_kick_max`. -/
def __cpu_input_boost_kick_wake (fuel : Nat) (e : Env) (c : Params) (now : Nat)
    (skew : Nat) (b : boost_drv) : Option boost_drv :=
  if !test_bit SCREEN_OFF b.state then some b
  else if c.wake_boost_duration == 0 then some b
  else
    __cpu_input_boost_kick_max fuel e now skew
      { b with state := set_bit WAKE_BOOST b.state } c.wake_boost_duration

/-- Source: `cpu_input_boost_kick_wake`. -/
def cpu_input_boost_kick_wake (fuel : Nat) (e : Env) (c : Params) (now : Nat)
    (skew : Nat) (b : boost_drv) : Option boost_drv :=
  __cpu_input_boost_kick_wake fuel e c now skew b

/-- Source: `input_unboost_worker`. -/
def input_unboost_worker (b : boost_drv) : boost_drv :=
  wake_up { b with state := clear_bit INPUT_BOOST b.state }

/-- Source: `max_unboost_worker`. -/
def max_unboost_worker (b : boost_drv) : boost_drv :=
  wake_up { b with state := clear_bit WAKE_BOOST (clear_bit MAX_BOOST b.state) }

/-- Modelled from the spec: the input-unboost timer fires ("on input-unboost fire:
clear `INPUT_BOOST`; signal worker"). The workqueue, which is not among the source
files, runs a due work once: it drops the pending flag and calls the handler. `none`
when the work is not due at `now`. -/
def input_unboost_fire (now : Nat) (b : boost_drv) : Option boost_drv :=
  if delayed_work_due now b.input_unboost then
    some (input_unboost_worker
      { b with input_unboost := { b.input_unboost with pending := false } })
  else none

/-- Modelled from the spec: the max-unboost timer fires ("on max-unboost fire: clear
`MAX_BOOST` and `WAKE_BOOST` together; signal worker"); see `input_unboost_fire`. -/
def max_unboost_fire (now : Nat) (b : boost_drv) : Option boost_drv :=
  if delayed_work_due now b.max_unboost then
    some (max_unboost_worker
      { b with max_unboost := { b.max_unboost with pending := false } })
  else none

/-- Source: `cpu_input_boost_within_input`. -/
def cpu_input_boost_within_input (e : Env) (now : Nat) (b : boost_drv) (timeout_ms : Nat) : Bool :=
  time_before now ((b.last_input_jiffies + e.msecs_to_jiffies timeout_ms) % ULONG_MOD)

/-- Source: `cpu_input_boost_input_event`. -/
def cpu_input_boost_input_event (e : Env) (c : Params) (now : Nat) (b : boost_drv) : boost_drv :=
  { __cpu_input_boost_kick e c now b with last_input_jiffies := now }

/-- The later of two jiffies instants in the kernel's order `time_after`. -/
def later_of (a b : Nat) : Nat := if time_after a b then a else b

/-! ## Sample platform used to evaluate the definitions -/

/-- A platform with one tick per millisecond (`HZ = 1000`), CPUs 0-5 in the low-power
cluster and CPUs 6-7 in the high-performance cluster, battery saver off. -/
def sample_env : Env :=
  { msecs_to_jiffies := fun m => m
    cpu_lp_mask := 0x3f
    cpu_perf_mask := 0xc0
    is_battery_saver_on := false
    CPUFREQ_ADJUST := 0 }

/-- The platform `sample_env` with battery saver switched on. -/
def sample_env_saver : Env := { sample_env with is_battery_saver_on := true }

/-- Illustrative module parameters (frequencies in kHz, durations in ms). -/
def sample_params : Params :=
  { input_boost_freq_lp := 1352000
    input_boost_freq_hp := 1560000
    max_boost_freq_lp := 1586000
    max_boost_freq_hp := 1768000
    idle_min_freq_lp := 449000
    idle_min_freq_hp := 936000
    remove_input_boost_freq_lp := 546000
    remove_input_boost_freq_perf := 1040000
    input_boost_duration := 100
    wake_boost_duration := 1000 }

/-- A policy of the low-power cluster (CPU 0). -/
def sample_policy_lp : cpufreq_policy :=
  { cpu := 0, min := 449000, max := 1586000,
    cpuinfo := { max_freq := 1586000, min_freq := 449000 } }

/-- A policy of the high-performance cluster (CPU 6). -/
def sample_policy_hp : cpufreq_policy :=
  { cpu := 6, min := 936000, max := 1768000,
    cpuinfo := { max_freq := 1768000, min_freq := 936000 } }

/-- The driver state after `cpu_input_boost_kick_max(200)` at tick 1000 on
`sample_env`, starting from `boost_drv_g`: max boost until tick 1200. -/
def sample_boosted : boost_drv :=
  { input_unboost := { pending := false, expires := 0 }
    max_unboost := { pending := true, expires := 1200 }
    boost_waitq := 1
    max_boost_expires := 1200
    state := 4
    last_input_jiffies := 0 }

/-! ## Display adapter -/

/-- The notifier codes of `linux/fb.h` that `fb_notifier_cb` compares with: the action
`FB_EARLY_EVENT_BLANK` and the blank value `FB_BLANK_UNBLANK`. The header is not among
the source files, so the two codes are parameters. -/
structure fb_codes where
  FB_EARLY_EVENT_BLANK : Nat
  FB_BLANK_UNBLANK : Int

/-- Source: `fb_notifier_cb`; `blank` is the value `*(int *)evdata->data`, `now` and
`skew` are the two clock readings of `__cpu_input_boost_kick_max`. Returns the
notifier result and the driver state. -/
def fb_notifier_cb (fuel : Nat) (e : Env) (k : fb_codes) (c : Params) (now : Nat)
    (skew : Nat) (b : boost_drv) (action : Nat) (blank : Int) : Option (Nat × boost_drv) :=
  if action != k.FB_EARLY_EVENT_BLANK then some (NOTIFY_OK, b)
  else if blank == k.FB_BLANK_UNBLANK then
    match __cpu_input_boost_kick_wake fuel e c now skew b with
    | none => none
    | some b1 => some (NOTIFY_OK, { b1 with state := clear_bit SCREEN_OFF b1.state })
  else
    some (NOTIFY_OK, wake_up { b with state := set_bit SCREEN_OFF b.state })

/-- The codes of `linux/fb.h`: `FB_EARLY_EVENT_BLANK = 0x10`, `FB_BLANK_UNBLANK = 0`. -/
def sample_fb_codes : fb_codes :=
  { FB_EARLY_EVENT_BLANK := 0x10, FB_BLANK_UNBLANK := 0 }

/-! ## Whole driver operations -/

/-- The operations that act on the driver state, each run to completion: the two
input entry points, the two max-boost entry points, a display notification and the
two timer fires. Module parameters are runtime-tunable, so every operation that reads
them carries the values in force when it runs; operations with a compare-and-swap
loop carry their fuel and the number of ticks `skew` between their two readings of
`jiffies`. -/
inductive driver_op where
  | kick_input (c : Params)
  | input_event (c : Params)
  | kick_max (fuel : Nat) (skew : Nat) (duration_ms : Nat)
  | kick_wake (fuel : Nat) (skew : Nat) (c : Params)
  | fb_event (fuel : Nat) (skew : Nat) (c : Params) (action : Nat) (blank : Int)
  | input_unboost_fire
  | max_unboost_fire

/-- Run one operation at time `now`. `none`: the operation cannot run (a timer that
is not due) or ran out of fuel. -/
def run_op (e : Env) (k : fb_codes) (now : Nat) (b : boost_drv) : driver_op → Option boost_drv
  | driver_op.kick_input c => some (cpu_input_boost_kick e c now b)
  | driver_op.input_event c => some (cpu_input_boost_input_event e c now b)
  | driver_op.kick_max fuel skew duration_ms =>
    cpu_input_boost_kick_max fuel e now skew b duration_ms
  | driver_op.kick_wake fuel skew c => cpu_input_boost_kick_wake fuel e c now skew b
  | driver_op.fb_event fuel skew c action blank =>
    (fb_notifier_cb fuel e k c now skew b action blank).map (fun r => r.2)
  | driver_op.input_unboost_fire => input_unboost_fire now b
  | driver_op.max_unboost_fire => max_unboost_fire now b

/-- Run a sequence of timestamped operations one after the other, starting from `b`. -/
def run_ops (e : Env) (k : fb_codes) : List (Nat × driver_op) → boost_drv → Option boost_drv
  | [], b => some b
  | (now, op) :: rest, b =>
    match run_op e k now b op with
    | none => none
    | some b1 => run_ops e k rest b1

/-- The delay, in jiffies, that an operation may add to the time `now` at which it
starts: the ticks between its two clock readings and the duration it arms a timer
for. -/
def op_delay (e : Env) : driver_op → Nat
  | driver_op.kick_input c => e.msecs_to_jiffies c.input_boost_duration
  | driver_op.input_event c => e.msecs_to_jiffies c.input_boost_duration
  | driver_op.kick_max _ skew duration_ms => skew + e.msecs_to_jiffies duration_ms
  | driver_op.kick_wake _ skew c => skew + e.msecs_to_jiffies c.wake_boost_duration
  | driver_op.fb_event _ skew c _ _ => skew + e.msecs_to_jiffies c.wake_boost_duration
  | driver_op.input_unboost_fire => 0
  | driver_op.max_unboost_fire => 0

/-- The timestamps of a sequence of operations are those of a running clock: they do
not go back from `t`, and every instant an operation computes stays below `2 ^ 63`
(jiffies has not come within a boost duration of wrapping). -/
def ops_timed (e : Env) : Nat → List (Nat × driver_op) → Bool
  | _, [] => true
  | t, (now, op) :: rest =>
    decide (t ≤ now) && decide (now + op_delay e op < LONG_SIGN) && ops_timed e now rest

/-- Time of the last operation of a sequence that starts at time `t`. -/
def last_time : Nat → List (Nat × driver_op) → Nat
  | t, [] => t
  | _, (now, _) :: rest => last_time now rest

/-- A sample run: max boost for 200 ms at tick 1000, then display blank at tick 1050;
the clock does not advance inside an operation. -/
def sample_ops : List (Nat × driver_op) :=
  [ (1000, driver_op.kick_max 1 0 200),
    (1050, driver_op.fb_event 1 0 sample_params 0x10 4) ]

/-- The driver state after `sample_ops`: screen off, max boost stored until tick 1200
with its timer pending, two wake-ups so far. -/
def sample_blanked : boost_drv :=
  { input_unboost := { pending := false, expires := 0 }
    max_unboost := { pending := true, expires := 1200 }
    boost_waitq := 2
    max_boost_expires := 1200
    state := 5
    last_input_jiffies := 0 }

/-- The sample parameters with a wake boost of 100 ms. -/
def sample_params_short_wake : Params := { sample_params with wake_boost_duration := 100 }

/-- The sample parameters with the wake boost switched off. -/
def sample_params_no_wake : Params := { sample_params with wake_boost_duration := 0 }

/-- The sample run continued by a wake kick of 100 ms at tick 1060. -/
def sample_ops_wake : List (Nat × driver_op) :=
  sample_ops ++ [(1060, driver_op.kick_wake 1 0 sample_params_short_wake)]

/-- The driver state after `sample_ops_wake`: as `sample_blanked`, with `WAKE_BOOST`
set as well. -/
def sample_woken : boost_drv := { sample_blanked with state := 13 }

/-- The clock ticks between the two readings of `jiffies` inside an operation: the one
for the candidate expiry and the one from which `mod_delayed_work` counts its delay.
Operations that arm no max-unboost work have none. -/
def op_skew : driver_op → Nat
  | driver_op.kick_max _ skew _ => skew
  | driver_op.kick_wake _ skew _ => skew
  | driver_op.fb_event _ skew _ _ _ => skew
  | _ => 0

/-- No clock tick falls between the two readings of `jiffies` in any operation of the
sequence. -/
def ops_no_skew : List (Nat × driver_op) → Bool
  | [] => true
  | (_, op) :: rest => op_skew op == 0 && ops_no_skew rest

/-- Fewer than `2 ^ 63` clock ticks fall between the two readings of `jiffies` in
every operation of the sequence. -/
def ops_skew_bounded : List (Nat × driver_op) → Bool
  | [] => true
  | (_, op) :: rest => decide (op_skew op < LONG_SIGN) && ops_skew_bounded rest

/-- A max boost for 200 ms at tick 1000 during which the clock advances by one tick
between the computation of the expiry and the arming of the timer. -/
def sample_ops_skew : List (Nat × driver_op) :=
  [ (1000, driver_op.kick_max 1 1 200) ]

/-- The driver state after `sample_ops_skew`: expiry 1200 stored, timer armed for
tick 1201. -/
def sample_boosted_skew : boost_drv :=
  { input_unboost := { pending := false, expires := 0 }
    max_unboost := { pending := true, expires := 1201 }
    boost_waitq := 1
    max_boost_expires := 1200
    state := 4
    last_input_jiffies := 0 }

/-- The consistency of timers, bits and stored expiry that every operation keeps
when the clock runs forward, at a time `t` not earlier than the last operation:
each unboost work is pending exactly when its boost bit is set, `WAKE_BOOST` is set
only together with `MAX_BOOST`, the deadline of a pending max-unboost work is not
earlier than the stored expiry, and when no max boost is pending the stored expiry
is not in the future. -/
def driver_inv (t : Nat) (b : boost_drv) : Prop :=
  b.max_unboost.pending = test_bit MAX_BOOST b.state ∧
  (test_bit WAKE_BOOST b.state = true → test_bit MAX_BOOST b.state = true) ∧
  (b.max_unboost.pending = true →
    b.max_boost_expires ≤ b.max_unboost.expires ∧ b.max_unboost.expires < LONG_SIGN) ∧
  b.max_boost_expires < LONG_SIGN ∧
  (b.max_unboost.pending = false → b.max_boost_expires ≤ t) ∧
  b.input_unboost.pending = test_bit INPUT_BOOST b.state

/-! ## Driver initialisation -/

/-- The calls `cpu_input_boost_init` makes into the rest of the kernel. -/
inductive init_call where
  | cpufreq_register_notifier
  | input_register_handler
  | fb_register_client
  | kthread_run_perf_critical
  | fb_unregister_client
  | input_unregister_handler
  | cpufreq_unregister_notifier
deriving DecidableEq, Repr

/-- What the kernel holds on behalf of the driver: which of the three registrations
exist, whether the worker thread runs, and the calls received so far, in order. -/
structure registry where
  cpu_notif : Bool
  input_handler : Bool
  fb_notif : Bool
  thread : Bool
  calls : List init_call
deriving DecidableEq, Repr

/-- Nothing registered, no call made. -/
def registry_empty : registry :=
  { cpu_notif := false, input_handler := false, fb_notif := false, thread := false,
    calls := [] }

/-- The results the four fallible calls will give: the `int` returned by the three
registrations and the pointer returned by `kthread_run_perf_critical`. -/
structure init_outcomes where
  ret_cpufreq : Int
  ret_input : Int
  ret_fb : Int
  thread : Nat

/-- Largest error number encoded in a pointer (`MAX_ERRNO` of `linux/err.h`). -/
def MAX_ERRNO : Nat := 4095

/-- Modelled from the spec: `IS_ERR(ptr)` of `linux/err.h` (not among the source
files): the pointer lies in the last `MAX_ERRNO` values of the address space. -/
def IS_ERR (ptr : Nat) : Bool := decide (ULONG_MOD - MAX_ERRNO ≤ ptr)

/-- Modelled from the spec: `PTR_ERR(ptr)`, the pointer read as a `long`. -/
def PTR_ERR (ptr : Nat) : Int :=
  if LONG_SIGN ≤ ptr then (ptr : Int) - (ULONG_MOD : Int) else (ptr : Int)

/-- Conversion of a `long` to `int`, as in `ret = PTR_ERR(thread)`. -/
def int_of_long (x : Int) : Int := (x + 2 ^ 31) % 2 ^ 32 - 2 ^ 31

/-- Modelled from the spec: `cpufreq_register_notifier`; the notifier is registered
when the call returns 0. -/
def cpufreq_register_notifier (ret : Int) (r : registry) : Int × registry :=
  (ret, { r with cpu_notif := r.cpu_notif || decide (ret = 0)
                 calls := r.calls ++ [init_call.cpufreq_register_notifier] })

/-- Modelled from the spec: `input_register_handler`; the handler is registered when
the call returns 0. -/
def input_register_handler (ret : Int) (r : registry) : Int × registry :=
  (ret, { r with input_handler := r.input_handler || decide (ret = 0)
                 calls := r.calls ++ [init_call.input_register_handler] })

/-- Modelled from the spec: `fb_register_client`; the client is registered when the
call returns 0. -/
def fb_register_client (ret : Int) (r : registry) : Int × registry :=
  (ret, { r with fb_notif := r.fb_notif || decide (ret = 0)
                 calls := r.calls ++ [init_call.fb_register_client] })

/-- Modelled from the spec: `kthread_run_perf_critical`; the thread runs unless the
returned pointer is an error pointer. -/
def kthread_run_perf_critical (thread : Nat) (r : registry) : Nat × registry :=
  (thread, { r with thread := r.thread || !IS_ERR thread
                    calls := r.calls ++ [init_call.kthread_run_perf_critical] })

/-- Modelled from the spec: `fb_unregister_client`. -/
def fb_unregister_client (r : registry) : registry :=
  { r with fb_notif := false, calls := r.calls ++ [init_call.fb_unregister_client] }

/-- Modelled from the spec: `input_unregister_handler`. -/
def input_unregister_handler (r : registry) : registry :=
  { r with input_handler := false
           calls := r.calls ++ [init_call.input_unregister_handler] }

/-- Modelled from the spec: `cpufreq_unregister_notifier`. -/
def cpufreq_unregister_notifier (r : registry) : registry :=
  { r with cpu_notif := false
           calls := r.calls ++ [init_call.cpufreq_unregister_notifier] }

/-- Source: `cpu_input_boost_init`. Returns the `int` result and the registry as the
function leaves it; the three `goto` labels are the nested unregistrations. -/
def cpu_input_boost_init (o : init_outcomes) (r : registry) : Int × registry :=
  let s1 := cpufreq_register_notifier o.ret_cpufreq r
  if s1.1 != 0 then (s1.1, s1.2)
  else
    let s2 := input_register_handler o.ret_input s1.2
    if s2.1 != 0 then (s2.1, cpufreq_unregister_notifier s2.2)
    else
      let s3 := fb_register_client o.ret_fb s2.2
      if s3.1 != 0 then
        (s3.1, cpufreq_unregister_notifier (input_unregister_handler s3.2))
      else
        let s4 := kthread_run_perf_critical o.thread s3.2
        if IS_ERR s4.1 then
          (int_of_long (PTR_ERR s4.1),
            cpufreq_unregister_notifier
              (input_unregister_handler (fb_unregister_client s4.2)))
        else (0, s4.2)

/-- The address-space value of the error pointer `ERR_PTR(-12)` (`-ENOMEM`). -/
def sample_err_ptr : Nat := 18446744073709551604

/-! ## Cluster parameters of a domain -/

/-- The configured input-boost frequency of the cluster that `get_input_boost_freq`
selects for the policy. -/
def cluster_input_boost_freq (e : Env) (c : Params) (policy : cpufreq_policy) : Nat :=
  if cpumask_test_cpu policy.cpu e.cpu_lp_mask then c.input_boost_freq_lp
  else c.input_boost_freq_hp

/-- The configured remove floor of the cluster that `get_input_boost_freq` and, with
the screen on, `get_min_freq` select for the policy. -/
def cluster_remove_freq (e : Env) (c : Params) (policy : cpufreq_policy) : Nat :=
  if cpumask_test_cpu policy.cpu e.cpu_lp_mask then c.remove_input_boost_freq_lp
  else c.remove_input_boost_freq_perf

/-- The sample parameters with input boost and remove floor of the high-performance
cluster set to 0. -/
def sample_params_zero_boost : Params :=
  { sample_params with input_boost_freq_hp := 0, remove_input_boost_freq_perf := 0 }

/-- The sample parameters with a remove floor of the high-performance cluster above
the maximum of `sample_policy_hp`. -/
def sample_params_high_remove : Params :=
  { sample_params with remove_input_boost_freq_perf := 2000000 }

end CpuInputBoost

/-!
The user frequency control of `drivers/cpufreq/exynos-ufc.c`: the sysfs stores that
turn one user input into per-domain PM QoS requests.

* A domain list is a Lean list in list order (first domain at the head); the loops
  `list_for_each_entry_reverse` run from the last domain to the first.
* A PM QoS request is represented by the value last passed to
  `pm_qos_update_request`; every such call is also appended to `qos_log`.
* `compared` records, per domain, the frequency that a min-limit store computes
  before it compares it with `domain->min_freq`.
-/

namespace ExynosUfc

/-! ## Data model of the user frequency control -/

/-- Source: `SCALE_SIZE`, log2 of the scale between neighbouring domains. -/
def SCALE_SIZE : Nat := 2

/-- Number of values of an `unsigned int`. -/
def UINT_MOD : Nat := 2 ^ 32

/-- Error number `EINVAL`. -/
def EINVAL : Int := 22

/-- Error number `ENXIO`. -/
def ENXIO : Int := 6

/-- Modelled from the spec: `struct exynos_ufc_freq` of `exynos-acme.h` (a header of
this kernel tree that is not among the source files): one row of a limit table. -/
structure exynos_ufc_freq where
  master_freq : Nat
  limit_freq : Nat
deriving DecidableEq, Repr

/-- Modelled from the spec: `struct exynos_ufc_info` of `exynos-acme.h`, with the
fields the stores read. -/
structure exynos_ufc_info where
  ctrl_type : Nat
  exe_mode : Nat
  freq_table : List exynos_ufc_freq
deriving DecidableEq, Repr

/-- Modelled from the spec: `struct exynos_ufc` of `exynos-acme.h`. -/
structure exynos_ufc where
  info : exynos_ufc_info
deriving DecidableEq, Repr

/-- Modelled from the spec: `struct exynos_cpufreq_domain` of `exynos-acme.h`, with the
fields the stores read or write; the three requests hold their current value. -/
structure exynos_cpufreq_domain where
  id : Nat
  cpus : Nat
  cal_id : Nat
  min_freq : Nat
  max_freq : Nat
  user_default_qos : Nat
  ufc_list : List exynos_ufc
  user_min_qos_req : Nat
  user_max_qos_req : Nat
  user_min_qos_wo_boost_req : Nat
deriving DecidableEq, Repr

/-- The request a `pm_qos_update_request` call is made on. -/
inductive qos_target where
  | user_min (domain_id : Nat)
  | user_max (domain_id : Nat)
  | user_min_wo_boost (domain_id : Nat)
  | cpu_online_max
deriving DecidableEq, Repr

/-- One `pm_qos_update_request` call. -/
structure qos_update where
  target : qos_target
  value : Nat
deriving DecidableEq, Repr

/-- Source: `struct exynos_ufc_req`. -/
structure exynos_ufc_req where
  last_min_input : Int
  last_min_wo_boost_input : Int
  last_max_input : Int
deriving DecidableEq, Repr

/-- The mutable state of the file: the domain list with its requests, `ufc_req`, the
statics `last_max_limit`, `sse_mode` and `hmp_boost`, the request
`cpu_online_max_qos_req`, and the two records `qos_log` and `compared`. -/
structure ufc_state where
  domains : List exynos_cpufreq_domain
  ufc_req : exynos_ufc_req
  last_max_limit : Int
  sse_mode : Int
  hmp_boost : Bool
  cpu_online_max_qos_req : Nat
  qos_log : List qos_update
  compared : List (Nat × Nat)
deriving DecidableEq, Repr

/-- What the stores read from the rest of the kernel; none of it is defined in the
source file. `cpufreq_cpu_get_raw` tells whether a CPU has a policy,
`cpufreq_frequency_table_target` gives the table index for a target frequency or
fails, `domain_list` tells whether `get_domain_list()` is not `NULL`. -/
structure ufc_env where
  ap_fuse : Nat
  nr_cpu_ids : Nat
  cpu_online_mask : Nat
  early_cpu_mask : Nat
  domain_list : Bool
  cpumask_any : Nat → Nat
  cpufreq_cpu_get_raw : Nat → Bool
  cal_dfs_get_max_freq : Nat → Nat
  cpufreq_frequency_table_target : exynos_cpufreq_domain → Nat → Option Nat
  PM_QOS_MIN_LIMIT : Nat
  PM_QOS_MAX_LIMIT : Nat
  PM_QOS_MIN_WO_BOOST_LIMIT : Nat
  AARCH64_MODE : Nat
  CONFIG_SCHED_HMP : Bool

/-- The variables carried from one iteration of a store loop to the next: the locals
`scale`, `set_max`, `set_limit`, `req_limit_freq` and the file-level state the loop
body writes. -/
structure ufc_loop where
  scale : Int
  set_max : Bool
  set_limit : Bool
  req_limit_freq : Nat
  hmp_boost : Bool
  cpu_online_max_qos_req : Nat
  qos_log : List qos_update
  compared : List (Nat × Nat)
deriving DecidableEq, Repr

/-- Modelled from the spec: `cpumask_weight(mask)`, the number of CPUs in the mask. -/
def cpumask_weight (e : ufc_env) (mask : Nat) : Nat :=
  ((List.range e.nr_cpu_ids).filter (fun cpu => mask.testBit cpu)).length

/-- The loop variables at loop entry: `scale` is -1, or 0 when `ap_fuse == 2`. -/
def loop_entry (e : ufc_env) (s : ufc_state) : ufc_loop :=
  { scale := if e.ap_fuse == 2 then 0 else -1
    set_max := false
    set_limit := false
    req_limit_freq := 0
    hmp_boost := s.hmp_boost
    cpu_online_max_qos_req := s.cpu_online_max_qos_req
    qos_log := s.qos_log
    compared := s.compared }

/-- The file-level state after a loop. -/
def loop_exit (s : ufc_state) (r : List exynos_cpufreq_domain × ufc_loop) : ufc_state :=
  { s with
    domains := r.1
    hmp_boost := r.2.hmp_boost
    cpu_online_max_qos_req := r.2.cpu_online_max_qos_req
    qos_log := r.2.qos_log
    compared := r.2.compared }

/-- Source: `list_for_each_entry_reverse(domain, domains, list)`: the body runs on the
domains from the last to the first; `i` is the position of the head in the list. -/
def for_each_domain_reverse
    (body : Nat → exynos_cpufreq_domain → ufc_loop → exynos_cpufreq_domain × ufc_loop) :
    Nat → List exynos_cpufreq_domain → ufc_loop → List exynos_cpufreq_domain × ufc_loop
  | _, [], v => ([], v)
  | i, d :: rest, v =>
    let r := for_each_domain_reverse body (i + 1) rest v
    let r2 := body i d r.2
    (r2.1 :: r.1, r2.2)

/-- Source: the inner `list_for_each_entry(ufc, &domain->ufc_list, list)`: the last
table of control type `ctrl` in AArch64 mode (`r_ufc`) and the last one in another
mode (`r_ufc_32`). -/
def select_ufc (e : ufc_env) (ctrl : Nat) (ufc_list : List exynos_ufc) :
    Option exynos_ufc × Option exynos_ufc :=
  ufc_list.foldl
    (fun acc ufc =>
      if ufc.info.ctrl_type == ctrl then
        if ufc.info.exe_mode == e.AARCH64_MODE then (some ufc, acc.2) else (acc.1, some ufc)
      else acc)
    (none, none)

/-- Source: `if (sse_mode && r_ufc_32) r_ufc = r_ufc_32;`. -/
def pick_ufc (sse_mode : Int) (r_ufc : exynos_ufc) (r_ufc_32 : Option exynos_ufc) :
    exynos_ufc :=
  match r_ufc_32 with
  | some u => if sse_mode != 0 then u else r_ufc
  | none => r_ufc

/-- Source: `r_ufc->info.freq_table[index].limit_freq`. -/
def limit_freq_at (r_ufc : exynos_ufc) (index : Nat) : Nat :=
  match r_ufc.info.freq_table.get? index with
  | some row => row.limit_freq
  | none => 0

/-- Source: `freq = input << (scale * SCALE_SIZE)`, an `int` shifted and stored in an
`unsigned int`. It is evaluated only with `input` and `scale` not negative. -/
def scale_up (input : Int) (scale : Int) : Nat :=
  (input.toNat <<< ((scale * (SCALE_SIZE : Int)).toNat)) % UINT_MOD

/-- Record a `pm_qos_update_request` call. -/
def log_qos (target : qos_target) (value : Nat) (v : ufc_loop) : ufc_loop :=
  { v with qos_log := v.qos_log ++ [{ target := target, value := value }] }

/-- Source: `enable_domain_cpus`; `is_first` is `domain == first_domain()`. -/
def enable_domain_cpus (e : ufc_env) (is_first : Bool) (domain : exynos_cpufreq_domain)
    (v : ufc_loop) : ufc_loop :=
  if is_first then v
  else
    let mask := e.early_cpu_mask ||| domain.cpus
    log_qos qos_target.cpu_online_max (cpumask_weight e mask)
      { v with cpu_online_max_qos_req := cpumask_weight e mask }

/-- Modelled from the spec: `cpumask_andnot(dst, a, b)`: the CPUs of `a` not in `b`. -/
def cpumask_andnot (a b : Nat) : Nat := a ^^^ (a &&& b)

/-- Source: `disable_domain_cpus`. -/
def disable_domain_cpus (e : ufc_env) (is_first : Bool) (domain : exynos_cpufreq_domain)
    (v : ufc_loop) : ufc_loop :=
  if is_first then v
  else
    let mask := cpumask_andnot e.early_cpu_mask domain.cpus
    log_qos qos_target.cpu_online_max (cpumask_weight e mask)
      { v with cpu_online_max_qos_req := cpumask_weight e mask }

/-- Source: `control_hmp_boost`. With `CONFIG_SCHED_HMP` the static `hmp_boost`
follows `enable`; without it the function is empty. -/
def control_hmp_boost (e : ufc_env) (enable : Bool) (v : ufc_loop) : ufc_loop :=
  if e.CONFIG_SCHED_HMP then
    if v.hmp_boost && !enable then { v with hmp_boost := false }
    else if !v.hmp_boost && enable then { v with hmp_boost := true }
    else v
  else v

/-- Source: the end of the loop body of `cpufreq_max_limit_update`, from
`if (freq < domain->min_freq)` on. -/
def max_limit_apply (e : ufc_env) (i : Nat) (domain : exynos_cpufreq_domain) (freq : Nat)
    (v : ufc_loop) : exynos_cpufreq_domain × ufc_loop :=
  if freq < domain.min_freq then
    ({ domain with user_max_qos_req := 0 },
      disable_domain_cpus e (i == 0) domain
        (log_qos (qos_target.user_max domain.id) 0 { v with set_limit := false }))
  else
    let v1 := enable_domain_cpus e (i == 0) domain v
    let freq2 := max freq domain.min_freq
    ({ domain with user_max_qos_req := freq2 },
      { log_qos (qos_target.user_max domain.id) freq2 v1 with set_max := true })

/-- Source: the body of the loop of `cpufreq_max_limit_update`, for the domain at
position `i` of the list (`i == 0` is `domain == first_domain()`). -/
def max_limit_body (e : ufc_env) (sse_mode : Int) (input_freq : Int) (i : Nat)
    (domain : exynos_cpufreq_domain) (v0 : ufc_loop) : exynos_cpufreq_domain × ufc_loop :=
  let mask := domain.cpus &&& e.cpu_online_mask
  let policy : Bool :=
    if cpumask_weight e mask != 0 then e.cpufreq_cpu_get_raw (e.cpumask_any mask) else false
  let r := select_ufc e e.PM_QOS_MAX_LIMIT domain.ufc_list
  let v := { v0 with scale := v0.scale + 1 }
  if v.set_limit then
    let req := max v.req_limit_freq domain.min_freq
    ({ domain with user_max_qos_req := req },
      log_qos (qos_target.user_max domain.id) req
        { v with req_limit_freq := req, set_limit := false })
  else if v.set_max then
    ({ domain with user_max_qos_req := domain.max_freq },
      log_qos (qos_target.user_max domain.id) domain.max_freq v)
  else if input_freq < 0 then
    ({ domain with user_max_qos_req := domain.max_freq },
      log_qos (qos_target.user_max domain.id) domain.max_freq
        (enable_domain_cpus e (i == 0) domain v))
  else
    let freq := scale_up input_freq v.scale
    match r.1 with
    | some r_ufc =>
      if policy then
        match e.cpufreq_frequency_table_target domain freq with
        | none => (domain, v)
        | some index =>
          let req := limit_freq_at (pick_ufc sse_mode r_ufc r.2) index
          max_limit_apply e i domain freq
            { v with req_limit_freq := req
                     set_limit := if req != 0 then true else v.set_limit }
      else max_limit_apply e i domain freq v
    | none => max_limit_apply e i domain freq v

/-- Source: `cpufreq_max_limit_update`. -/
def cpufreq_max_limit_update (e : ufc_env) (input_freq : Int) (s : ufc_state) : ufc_state :=
  loop_exit s
    (for_each_domain_reverse (max_limit_body e s.sse_mode input_freq) 0 s.domains
      (loop_entry e s))

/-- Source: `store_cpufreq_max_limit`; `scan` is what `sscanf(buf, "%8d", &input)`
read, `none` when it read nothing. Returns the `ssize_t` result and the state. -/
def store_cpufreq_max_limit (e : ufc_env) (scan : Option Int) (count : Nat) (s : ufc_state) :
    Int × ufc_state :=
  match scan with
  | none => (- EINVAL, s)
  | some input =>
    let s1 := { s with ufc_req := { s.ufc_req with last_max_input := input }
                       last_max_limit := input }
    ((count : Int), cpufreq_max_limit_update e input s1)

/-- Source: the loop body of `store_cpufreq_min_limit`, for the domain at position `i`
of a list of `n` domains (`i + 1 == n` is `domain == last_domain()`). -/
def min_limit_body (e : ufc_env) (sse_mode : Int) (input : Int) (n : Nat) (i : Nat)
    (domain : exynos_cpufreq_domain) (v0 : ufc_loop) : exynos_cpufreq_domain × ufc_loop :=
  let mask := domain.cpus &&& e.cpu_online_mask
  if cpumask_weight e mask == 0 then (domain, v0)
  else if !e.cpufreq_cpu_get_raw (e.cpumask_any mask) then (domain, v0)
  else
    let r := select_ufc e e.PM_QOS_MIN_LIMIT domain.ufc_list
    let v := { v0 with scale := v0.scale + 1 }
    if v.set_limit then
      let req := min v.req_limit_freq (e.cal_dfs_get_max_freq domain.cal_id)
      ({ domain with user_min_qos_req := req },
        log_qos (qos_target.user_min domain.id) req
          { v with req_limit_freq := req, set_limit := false })
    else if v.set_max then
      let qos :=
        if domain.user_default_qos != 0 then domain.user_default_qos
        else e.cal_dfs_get_max_freq domain.cal_id
      ({ domain with user_min_qos_req := qos },
        log_qos (qos_target.user_min domain.id) qos v)
    else if input < 0 then
      ({ domain with user_min_qos_req := 0 },
        control_hmp_boost e false (log_qos (qos_target.user_min domain.id) 0 v))
    else
      let freq := scale_up input v.scale
      let vc := { v with compared := v.compared ++ [(domain.id, freq)] }
      if freq < domain.min_freq then
        ({ domain with user_min_qos_req := 0 },
          log_qos (qos_target.user_min domain.id) 0 vc)
      else
        let apply (v1 : ufc_loop) : exynos_cpufreq_domain × ufc_loop :=
          let freq2 := min freq (e.cal_dfs_get_max_freq domain.cal_id)
          ({ domain with user_min_qos_req := freq2 },
            { control_hmp_boost e (i + 1 == n)
                (log_qos (qos_target.user_min domain.id) freq2 v1) with set_max := true })
        match r.1 with
        | some r_ufc =>
          match e.cpufreq_frequency_table_target domain freq with
          | none => (domain, vc)
          | some index =>
            let req := limit_freq_at (pick_ufc sse_mode r_ufc r.2) index
            apply { vc with req_limit_freq := req
                            set_limit := if req != 0 then true else vc.set_limit }
        | none => apply vc

/-- Source: `store_cpufreq_min_limit`; `scan` is what `sscanf(buf, "%8d", &input)`
read, `none` when it read nothing. Returns the `ssize_t` result and the state. -/
def store_cpufreq_min_limit (e : ufc_env) (scan : Option Int) (count : Nat) (s : ufc_state) :
    Int × ufc_state :=
  match scan with
  | none => (- EINVAL, s)
  | some input =>
    if !e.domain_list then (- ENXIO, s)
    else
      let s1 := { s with ufc_req := { s.ufc_req with last_min_input := input } }
      ((count : Int),
        loop_exit s1
          (for_each_domain_reverse (min_limit_body e s.sse_mode input s.domains.length) 0
            s1.domains (loop_entry e s1)))

/-- Source: the loop body of `store_cpufreq_min_limit_wo_boost`, for the domain at
position `i` of the list. -/
def min_limit_wo_boost_body (e : ufc_env) (sse_mode : Int) (input : Int) (_i : Nat)
    (domain : exynos_cpufreq_domain) (v0 : ufc_loop) : exynos_cpufreq_domain × ufc_loop :=
  let mask := domain.cpus &&& e.cpu_online_mask
  if cpumask_weight e mask == 0 then (domain, v0)
  else if !e.cpufreq_cpu_get_raw (e.cpumask_any mask) then (domain, v0)
  else
    let r := select_ufc e e.PM_QOS_MIN_WO_BOOST_LIMIT domain.ufc_list
    let v := { v0 with scale := v0.scale + 1 }
    if v.set_limit then
      let req := min v.req_limit_freq (e.cal_dfs_get_max_freq domain.cal_id)
      ({ domain with user_min_qos_req := req },
        log_qos (qos_target.user_min domain.id) req
          { v with req_limit_freq := req, set_limit := false })
    else if v.set_max then
      let qos :=
        if domain.user_default_qos != 0 then domain.user_default_qos
        else e.cal_dfs_get_max_freq domain.cal_id
      ({ domain with user_min_qos_wo_boost_req := qos },
        log_qos (qos_target.user_min_wo_boost domain.id) qos v)
    else if input < 0 then
      ({ domain with user_min_qos_wo_boost_req := 0 },
        log_qos (qos_target.user_min_wo_boost domain.id) 0 v)
    else
      let freq := scale_up input v.scale
      let vc := { v with compared := v.compared ++ [(domain.id, freq)] }
      if freq < domain.min_freq then
        ({ domain with user_min_qos_wo_boost_req := 0 },
          log_qos (qos_target.user_min_wo_boost domain.id) 0 vc)
      else
        let apply (v1 : ufc_loop) : exynos_cpufreq_domain × ufc_loop :=
          let freq2 := min freq (e.cal_dfs_get_max_freq domain.cal_id)
          ({ domain with user_min_qos_wo_boost_req := freq2 },
            { log_qos (qos_target.user_min_wo_boost domain.id) freq2 v1 with
              set_max := true })
        match r.1 with
        | some r_ufc =>
          match e.cpufreq_frequency_table_target domain freq with
          | none => (domain, vc)
          | some index =>
            let req := limit_freq_at (pick_ufc sse_mode r_ufc r.2) index
            apply { vc with req_limit_freq := req
                            set_limit := if req != 0 then true else vc.set_limit }
        | none => apply vc

/-- Source: `store_cpufreq_min_limit_wo_boost`; `scan` as in
`store_cpufreq_min_limit`. -/
def store_cpufreq_min_limit_wo_boost (e : ufc_env) (scan : Option Int) (count : Nat)
    (s : ufc_state) : Int × ufc_state :=
  match scan with
  | none => (- EINVAL, s)
  | some input =>
    if !e.domain_list then (- ENXIO, s)
    else
      let s1 := { s with ufc_req := { s.ufc_req with last_min_wo_boost_input := input } }
      ((count : Int),
        loop_exit s1
          (for_each_domain_reverse (min_limit_wo_boost_body e s.sse_mode input) 0
            s1.domains (loop_entry e s1)))

/-- The `pm_qos_update_request` calls that clearing the max limit makes on a list of
domains whose head is at position `i`: from the last domain to the first, the online
count for every domain but the first, then the domain's own `max_freq`. -/
def clear_max_limit_log (e : ufc_env) : Nat → List exynos_cpufreq_domain → List qos_update
  | _, [] => []
  | i, d :: rest =>
    clear_max_limit_log e (i + 1) rest
      ++ (if i == 0 then []
          else [{ target := qos_target.cpu_online_max
                  value := cpumask_weight e (e.early_cpu_mask ||| d.cpus) }])
      ++ [{ target := qos_target.user_max d.id, value := d.max_freq }]

/-- The value of `cpu_online_max_qos_req` after clearing the max limit on a list of
domains whose head is at position `i`: the online count of the last domain handled
that is not the first domain, or the previous value `q` when there is none. -/
def clear_max_limit_online (e : ufc_env) (q : Nat) : Nat → List exynos_cpufreq_domain → Nat
  | _, [] => q
  | i, d :: rest =>
    if i == 0 then clear_max_limit_online e q (i + 1) rest
    else cpumask_weight e (e.early_cpu_mask ||| d.cpus)

/-- The domain passes the two tests at the head of the min-limit loop bodies: it has
an online CPU, and that CPU has a policy. -/
def domain_eligible (e : ufc_env) (domain : exynos_cpufreq_domain) : Bool :=
  cpumask_weight e (domain.cpus &&& e.cpu_online_mask) != 0 &&
    e.cpufreq_cpu_get_raw (e.cpumask_any (domain.cpus &&& e.cpu_online_mask))

/-! ## Sample platform of the user frequency control -/

/-- The low-power domain: CPUs 0-5, no limit table, requests as `init_pm_qos` leaves
them. -/
def sample_domain_lp : exynos_cpufreq_domain :=
  { id := 0, cpus := 0x3f, cal_id := 0, min_freq := 449000, max_freq := 1586000,
    user_default_qos := 0, ufc_list := [],
    user_min_qos_req := 449000, user_max_qos_req := 1586000,
    user_min_qos_wo_boost_req := 449000 }

/-- The high-performance domain: CPUs 6-7, with one AArch64 limit table of control
type 2 (min limit without boost) whose only row limits the other domain to 1352000. -/
def sample_domain_hp : exynos_cpufreq_domain :=
  { id := 1, cpus := 0xc0, cal_id := 1, min_freq := 936000, max_freq := 1768000,
    user_default_qos := 0,
    ufc_list := [{ info := { ctrl_type := 2, exe_mode := 0,
                             freq_table := [{ master_freq := 1768000,
                                              limit_freq := 1352000 }] } }],
    user_min_qos_req := 936000, user_max_qos_req := 1768000,
    user_min_qos_wo_boost_req := 936000 }

/-- A platform with all eight CPUs online, a policy for every CPU, `ap_fuse` 0, and
control types 1 (min limit), 2 (min limit without boost), 3 (max limit). -/
def sample_ufc_env : ufc_env :=
  { ap_fuse := 0
    nr_cpu_ids := 8
    cpu_online_mask := 0xff
    early_cpu_mask := 0x3f
    domain_list := true
    cpumask_any := fun mask => if mask.testBit 0 then 0 else 6
    cpufreq_cpu_get_raw := fun _ => true
    cal_dfs_get_max_freq := fun cal_id => if cal_id == 0 then 1586000 else 1768000
    cpufreq_frequency_table_target := fun _ _ => some 0
    PM_QOS_MIN_LIMIT := 1
    PM_QOS_MAX_LIMIT := 3
    PM_QOS_MIN_WO_BOOST_LIMIT := 2
    AARCH64_MODE := 0
    CONFIG_SCHED_HMP := false }

/-- The platform `sample_ufc_env` with the high-performance CPUs 6-7 offline. -/
def sample_ufc_env_hp_offline : ufc_env := { sample_ufc_env with cpu_online_mask := 0x3f }

/-- The state after initialisation: both domains, no input recorded yet. -/
def sample_ufc_state : ufc_state :=
  { domains := [sample_domain_lp, sample_domain_hp]
    ufc_req := { last_min_input := -1, last_min_wo_boost_input := -1, last_max_input := -1 }
    last_max_limit := -1
    sse_mode := 0
    hmp_boost := false
    cpu_online_max_qos_req := 8
    qos_log := []
    compared := [] }

end ExynosUfc

namespace CpuInputBoost

/-! ## Theorems -/

/-- C1: with battery saver on, `cpu_notifier_cb` called for `CPUFREQ_ADJUST` sets
`policy->min` to `policy->cpuinfo.min_freq`, whatever the boost state, the domain and
the module parameters are; nothing else in the policy changes. -/
theorem battery_saver_floor_is_cpuinfo_min (e : Env) (c : Params) (b : boost_drv)
    (policy : cpufreq_policy) (hsaver : e.is_battery_saver_on = true) :
    (cpu_notifier_cb e c b e.CPUFREQ_ADJUST policy).2
      = { policy with min := policy.cpuinfo.min_freq } := by
  simp [cpu_notifier_cb, hsaver]

/-- Witness for C1: battery saver on, every boost bit set, low-power sample policy. -/
theorem battery_saver_floor_is_cpuinfo_min_witness :
    sample_env_saver.is_battery_saver_on = true ∧
    (cpu_notifier_cb sample_env_saver sample_params { boost_drv_g with state := 15 }
        sample_env_saver.CPUFREQ_ADJUST sample_policy_lp).2
      = { sample_policy_lp with min := sample_policy_lp.cpuinfo.min_freq } :=
  ⟨rfl, battery_saver_floor_is_cpuinfo_min sample_env_saver sample_params
    { boost_drv_g with state := 15 } sample_policy_lp rfl⟩

/-! ### Bit operations -/

theorem test_bit_set_bit (n m w : Nat) :
    test_bit n (set_bit m w) = (test_bit n w || decide (m = n)) := by
  simp [test_bit, set_bit, Nat.one_shiftLeft, Nat.testBit_two_pow]

theorem test_bit_clear_bit (n m w : Nat) :
    test_bit n (clear_bit m w) = (test_bit n w && !decide (m = n)) := by
  simp only [test_bit, clear_bit, Nat.one_shiftLeft, Nat.testBit_xor, Nat.testBit_and,
    Nat.testBit_two_pow]
  cases Nat.testBit w n <;> cases decide (m = n) <;> rfl

theorem set_bit_idem (n w : Nat) : set_bit n (set_bit n w) = set_bit n w := by
  apply Nat.eq_of_testBit_eq
  intro i
  have h := test_bit_set_bit i n (set_bit n w)
  have h2 := test_bit_set_bit i n w
  simp only [test_bit] at h h2
  rw [h, h2]
  cases Nat.testBit w i <;> cases decide (n = i) <;> rfl

/-! ### Jiffies comparison -/

theorem time_after_self (a : Nat) : time_after a a = false := by
  simp only [time_after, ULONG_MOD, LONG_SIGN, decide_eq_false_iff_not]
  omega

/-- Inside the window where both instants are non-negative as `long`, the wrapping
comparison is the numeric one. -/
theorem time_after_eq_lt (a b : Nat) (ha : a < LONG_SIGN) (hb : b < LONG_SIGN) :
    time_after a b = decide (b < a) := by
  simp only [LONG_SIGN] at ha hb
  simp only [time_after, ULONG_MOD, LONG_SIGN, decide_eq_decide]
  omega

/-! ### Policy decision function -/

/-- C2: battery saver off, `WAKE_BOOST` clear, `SCREEN_OFF` and `MAX_BOOST` set
(`INPUT_BOOST` arbitrary): `cpu_notifier_cb` sets `policy->min` to `get_min_freq`,
the idle floor, not to the max-boost frequency. For a low-power domain that is
`max(idle_min_freq_lp, cpuinfo.min_freq)`, for a high-performance domain
`max(idle_min_freq_hp, cpuinfo.min_freq)`. -/
theorem screen_off_idle_floor_over_max_boost (e : Env) (c : Params) (b : boost_drv)
    (policy : cpufreq_policy) (hsaver : e.is_battery_saver_on = false)
    (hwake : test_bit WAKE_BOOST b.state = false)
    (hoff : test_bit SCREEN_OFF b.state = true)
    (_hmax : test_bit MAX_BOOST b.state = true) :
    (cpu_notifier_cb e c b e.CPUFREQ_ADJUST policy).2
        = { policy with min := get_min_freq e c b policy } ∧
    (is_lp_domain e policy = true →
      (cpu_notifier_cb e c b e.CPUFREQ_ADJUST policy).2.min
        = max c.idle_min_freq_lp policy.cpuinfo.min_freq) ∧
    (is_hp_domain e policy = true →
      (cpu_notifier_cb e c b e.CPUFREQ_ADJUST policy).2.min
        = max c.idle_min_freq_hp policy.cpuinfo.min_freq) := by
  refine ⟨?_, ?_, ?_⟩
  · simp [cpu_notifier_cb, hsaver, hwake, hoff]
  · intro hlp
    simp only [is_lp_domain] at hlp
    simp [cpu_notifier_cb, get_min_freq, hsaver, hwake, hoff, hlp]
  · intro hhp
    simp only [is_hp_domain, Bool.and_eq_true, Bool.not_eq_true'] at hhp
    simp [cpu_notifier_cb, get_min_freq, hsaver, hwake, hoff, hhp.1, hhp.2]

/-- Witness for C2: screen off with max boost and input boost set, evaluated for the
high-performance sample policy. -/
theorem screen_off_idle_floor_over_max_boost_witness :
    (sample_env.is_battery_saver_on = false ∧
      test_bit WAKE_BOOST 7 = false ∧ test_bit SCREEN_OFF 7 = true ∧
      test_bit MAX_BOOST 7 = true ∧ is_hp_domain sample_env sample_policy_hp = true) ∧
    (cpu_notifier_cb sample_env sample_params { boost_drv_g with state := 7 }
        sample_env.CPUFREQ_ADJUST sample_policy_hp).2.min
      = max sample_params.idle_min_freq_hp sample_policy_hp.cpuinfo.min_freq :=
  ⟨by decide,
   (screen_off_idle_floor_over_max_boost sample_env sample_params
      { boost_drv_g with state := 7 } sample_policy_hp rfl (by decide) (by decide)
      (by decide)).2.2 (by decide)⟩

/-- C3: battery saver off and `WAKE_BOOST` set: `cpu_notifier_cb` sets `policy->min`
to `min(max_boost_freq, policy->max)` with the max-boost frequency of the domain's
cluster, whatever `SCREEN_OFF`, `MAX_BOOST` and `INPUT_BOOST` are. -/
theorem wake_boost_floor_is_max_boost (e : Env) (c : Params) (b : boost_drv)
    (policy : cpufreq_policy) (hsaver : e.is_battery_saver_on = false)
    (hwake : test_bit WAKE_BOOST b.state = true) :
    (cpu_notifier_cb e c b e.CPUFREQ_ADJUST policy).2
      = { policy with
          min := min (if is_lp_domain e policy then c.max_boost_freq_lp
                      else c.max_boost_freq_hp) policy.max } := by
  simp [cpu_notifier_cb, get_max_boost_freq, is_lp_domain, hsaver, hwake]

/-- Witness for C3: wake boost during screen-off (state bits `SCREEN_OFF`, `MAX_BOOST`,
`WAKE_BOOST`), low-power sample policy. -/
theorem wake_boost_floor_is_max_boost_witness :
    (sample_env.is_battery_saver_on = false ∧ test_bit WAKE_BOOST 13 = true) ∧
    (cpu_notifier_cb sample_env sample_params { boost_drv_g with state := 13 }
        sample_env.CPUFREQ_ADJUST sample_policy_lp).2
      = { sample_policy_lp with
          min := min (if is_lp_domain sample_env sample_policy_lp
                      then sample_params.max_boost_freq_lp
                      else sample_params.max_boost_freq_hp) sample_policy_lp.max } :=
  ⟨by decide,
   wake_boost_floor_is_max_boost sample_env sample_params { boost_drv_g with state := 13 }
     sample_policy_lp rfl (by decide)⟩

/-- C4: battery saver off, `SCREEN_OFF` and `WAKE_BOOST` clear, `MAX_BOOST` set:
`cpu_notifier_cb` sets `policy->min` to `min(max_boost_freq, policy->max)` with the
max-boost frequency of the domain's cluster, whether or not `INPUT_BOOST` is set. -/
theorem max_boost_floor_over_input_boost (e : Env) (c : Params) (b : boost_drv)
    (policy : cpufreq_policy) (hsaver : e.is_battery_saver_on = false)
    (hon : test_bit SCREEN_OFF b.state = false)
    (hwake : test_bit WAKE_BOOST b.state = false)
    (hmax : test_bit MAX_BOOST b.state = true) :
    (cpu_notifier_cb e c b e.CPUFREQ_ADJUST policy).2
      = { policy with
          min := min (if is_lp_domain e policy then c.max_boost_freq_lp
                      else c.max_boost_freq_hp) policy.max } := by
  simp [cpu_notifier_cb, get_max_boost_freq, is_lp_domain, hsaver, hwake, hon, hmax]

/-- Witness for C4: max boost together with input boost (state bits `INPUT_BOOST`,
`MAX_BOOST`), high-performance sample policy. -/
theorem max_boost_floor_over_input_boost_witness :
    (sample_env.is_battery_saver_on = false ∧ test_bit SCREEN_OFF 6 = false ∧
      test_bit WAKE_BOOST 6 = false ∧ test_bit MAX_BOOST 6 = true) ∧
    (cpu_notifier_cb sample_env sample_params { boost_drv_g with state := 6 }
        sample_env.CPUFREQ_ADJUST sample_policy_hp).2
      = { sample_policy_hp with
          min := min (if is_lp_domain sample_env sample_policy_hp
                      then sample_params.max_boost_freq_lp
                      else sample_params.max_boost_freq_hp) sample_policy_hp.max } :=
  ⟨by decide,
   max_boost_floor_over_input_boost sample_env sample_params { boost_drv_g with state := 6 }
     sample_policy_hp rfl (by decide) (by decide) (by decide)⟩

/-! ### Input boost -/

/-- Closed form of `__cpu_input_boost_kick` when the screen is on and the input-boost
duration is not zero. -/
theorem kick_input_eq (e : Env) (c : Params) (now : Nat) (b : boost_drv)
    (hon : test_bit SCREEN_OFF b.state = false) (hD : c.input_boost_duration ≠ 0) :
    cpu_input_boost_kick e c now b =
      { b with
        state := set_bit INPUT_BOOST b.state
        input_unboost :=
          { pending := true
            expires := (now + e.msecs_to_jiffies c.input_boost_duration) % ULONG_MOD }
        boost_waitq := b.boost_waitq + (if b.input_unboost.pending then 0 else 1) } := by
  cases hp : b.input_unboost.pending <;>
    simp [cpu_input_boost_kick, __cpu_input_boost_kick, mod_delayed_work, wake_up, hon, hD, hp]

/-- A pending input-unboost work is due at its own deadline; firing drops the pending
flag and runs `input_unboost_worker`. -/
theorem input_unboost_fire_at_deadline (b : boost_drv)
    (hp : b.input_unboost.pending = true) :
    input_unboost_fire b.input_unboost.expires b
      = some (input_unboost_worker
          { b with input_unboost := { b.input_unboost with pending := false } }) := by
  simp [input_unboost_fire, delayed_work_due, time_before, time_after_self, hp]

/-- C5: input-boost scenario. With a non-zero input-boost duration `D`, battery saver
off and the four state bits clear, `cpu_input_boost_kick` at time `t` sets
`INPUT_BOOST` and arms the input-unboost timer for `t + msecs_to_jiffies(D)`. While
the bit is set, the floor of a high-performance domain (a domain outside
`cpu_lp_mask`) is `min(max(input_boost_freq_hp, remove_input_boost_freq_perf),
policy->max)`. The timer is not due at an earlier instant of the window, it is due at
its deadline, and when it fires `INPUT_BOOST` is cleared and the floor becomes
`max(remove_input_boost_freq_perf, cpuinfo.min_freq)`. -/
theorem input_boost_scenario (e : Env) (c : Params) (t : Nat) (b : boost_drv)
    (policy : cpufreq_policy)
    (hD : c.input_boost_duration ≠ 0)
    (hsaver : e.is_battery_saver_on = false)
    (hoff : test_bit SCREEN_OFF b.state = false)
    (_hinput : test_bit INPUT_BOOST b.state = false)
    (hmax : test_bit MAX_BOOST b.state = false)
    (hwake : test_bit WAKE_BOOST b.state = false)
    (hhp : is_lp_domain e policy = false) :
    test_bit INPUT_BOOST (cpu_input_boost_kick e c t b).state = true ∧
    (cpu_input_boost_kick e c t b).input_unboost
      = { pending := true
          expires := (t + e.msecs_to_jiffies c.input_boost_duration) % ULONG_MOD } ∧
    (cpu_notifier_cb e c (cpu_input_boost_kick e c t b) e.CPUFREQ_ADJUST policy).2.min
      = min (max c.input_boost_freq_hp c.remove_input_boost_freq_perf) policy.max ∧
    (∀ u, t ≤ u → u < t + e.msecs_to_jiffies c.input_boost_duration →
      t + e.msecs_to_jiffies c.input_boost_duration < LONG_SIGN →
      input_unboost_fire u (cpu_input_boost_kick e c t b) = none) ∧
    (∃ b2,
      input_unboost_fire ((t + e.msecs_to_jiffies c.input_boost_duration) % ULONG_MOD)
        (cpu_input_boost_kick e c t b) = some b2) ∧
    (∀ u b2, input_unboost_fire u (cpu_input_boost_kick e c t b) = some b2 →
      test_bit INPUT_BOOST b2.state = false ∧
      b2.input_unboost.pending = false ∧
      (cpu_notifier_cb e c b2 e.CPUFREQ_ADJUST policy).2.min
        = max c.remove_input_boost_freq_perf policy.cpuinfo.min_freq) := by
  simp only [is_lp_domain] at hhp
  rw [kick_input_eq e c t b hoff hD]
  simp only [SCREEN_OFF, INPUT_BOOST, MAX_BOOST, WAKE_BOOST] at hoff hmax hwake
  refine ⟨?_, rfl, ?_, ?_, ?_, ?_⟩
  · simp [test_bit_set_bit]
  · simp [cpu_notifier_cb, get_input_boost_freq, test_bit_set_bit, hsaver, hoff, hmax,
      hwake, hhp, SCREEN_OFF, INPUT_BOOST, MAX_BOOST, WAKE_BOOST]
  · intro u htu hlt hfit
    have hu : u < LONG_SIGN := lt_trans hlt hfit
    have hmod : (t + e.msecs_to_jiffies c.input_boost_duration) % ULONG_MOD
        = t + e.msecs_to_jiffies c.input_boost_duration := by
      apply Nat.mod_eq_of_lt
      simp only [LONG_SIGN] at hfit
      simp only [ULONG_MOD]
      omega
    have hcmp : time_before u (t + e.msecs_to_jiffies c.input_boost_duration) = true := by
      rw [time_before, time_after_eq_lt _ _ hfit hu]
      exact decide_eq_true hlt
    simp [input_unboost_fire, delayed_work_due, hmod, hcmp]
  · exact ⟨_, input_unboost_fire_at_deadline _ rfl⟩
  · intro u b2 hfire
    simp only [input_unboost_fire] at hfire
    split at hfire
    · injection hfire with hfire
      subst hfire
      refine ⟨?_, ?_, ?_⟩
      · simp [input_unboost_worker, wake_up, test_bit_clear_bit]
      · simp [input_unboost_worker, wake_up]
      · simp [cpu_notifier_cb, get_min_freq, input_unboost_worker, wake_up,
          test_bit_clear_bit, test_bit_set_bit, hsaver, hoff, hmax, hwake, hhp,
          SCREEN_OFF, INPUT_BOOST, MAX_BOOST, WAKE_BOOST]
    · exact absurd hfire (by simp)

/-- Witness for C5: `D = 100`, `t = 0`, one tick per millisecond, initial driver state,
high-performance sample policy: the timer is armed for tick 100 and the floor during
the boost is the input-boost frequency 1560000. -/
theorem input_boost_scenario_witness :
    (sample_params.input_boost_duration ≠ 0 ∧ sample_env.is_battery_saver_on = false ∧
      test_bit SCREEN_OFF boost_drv_g.state = false ∧
      test_bit INPUT_BOOST boost_drv_g.state = false ∧
      test_bit MAX_BOOST boost_drv_g.state = false ∧
      test_bit WAKE_BOOST boost_drv_g.state = false ∧
      is_lp_domain sample_env sample_policy_hp = false) ∧
    test_bit INPUT_BOOST
      (cpu_input_boost_kick sample_env sample_params 0 boost_drv_g).state = true ∧
    (cpu_input_boost_kick sample_env sample_params 0 boost_drv_g).input_unboost
      = { pending := true, expires := 100 } ∧
    (cpu_notifier_cb sample_env sample_params
        (cpu_input_boost_kick sample_env sample_params 0 boost_drv_g)
        sample_env.CPUFREQ_ADJUST sample_policy_hp).2.min = 1560000 ∧
    (∃ b2,
      input_unboost_fire 100 (cpu_input_boost_kick sample_env sample_params 0 boost_drv_g)
        = some b2 ∧
      test_bit INPUT_BOOST b2.state = false ∧
      (cpu_notifier_cb sample_env sample_params b2 sample_env.CPUFREQ_ADJUST
        sample_policy_hp).2.min = 1040000) :=
  have h := input_boost_scenario sample_env sample_params 0 boost_drv_g sample_policy_hp
    (by decide) rfl (by decide) (by decide) (by decide) (by decide) (by decide)
  ⟨by decide, h.1, h.2.1, h.2.2.1,
    match h.2.2.2.2.1 with
    | ⟨b2, hb2⟩ =>
      ⟨b2, hb2, (h.2.2.2.2.2 _ b2 hb2).1, (h.2.2.2.2.2 _ b2 hb2).2.2⟩⟩

/-! ### Max boost -/

/-- In a sequential execution the compare-and-swap of `__cpu_input_boost_kick_max`
succeeds at once: with any fuel left the loop ends in its first iteration. -/
theorem max_boost_expires_loop_succ (now boost_jiffies fuel v : Nat) :
    max_boost_expires_loop now boost_jiffies (fuel + 1) v =
      some (if time_after v ((now + boost_jiffies) % ULONG_MOD) then cas_outcome.skipped
            else cas_outcome.stored ((now + boost_jiffies) % ULONG_MOD)) := by
  cases h : time_after v ((now + boost_jiffies) % ULONG_MOD) <;>
    simp [max_boost_expires_loop, atomic_long_read, atomic_long_cmpxchg, h]

/-- Closed form of `__cpu_input_boost_kick_max`: it returns, and either skips the
boost or stores the candidate expiry, sets `MAX_BOOST` and re-arms the timer, `skew`
ticks later, for the relative delay. -/
theorem kick_max_eq (fuel : Nat) (e : Env) (now skew : Nat) (b : boost_drv) (d : Nat) :
    __cpu_input_boost_kick_max (fuel + 1) e now skew b d =
      some (if time_after b.max_boost_expires ((now + e.msecs_to_jiffies d) % ULONG_MOD)
        then b
        else
          { b with
            max_boost_expires := (now + e.msecs_to_jiffies d) % ULONG_MOD
            state := set_bit MAX_BOOST b.state
            max_unboost :=
              { pending := true
                expires := (now + skew + e.msecs_to_jiffies d) % ULONG_MOD }
            boost_waitq := b.boost_waitq + (if b.max_unboost.pending then 0 else 1) }) := by
  cases h : time_after b.max_boost_expires ((now + e.msecs_to_jiffies d) % ULONG_MOD) <;>
    cases hp : b.max_unboost.pending <;>
    simp [__cpu_input_boost_kick_max, max_boost_expires_loop_succ, mod_delayed_work,
      wake_up, h, hp]

/-- Closed form of the entry point `cpu_input_boost_kick_max` with the screen on. -/
theorem kick_max_screen_on_eq (fuel : Nat) (e : Env) (now skew : Nat) (b : boost_drv)
    (d : Nat) (hon : test_bit SCREEN_OFF b.state = false) :
    cpu_input_boost_kick_max (fuel + 1) e now skew b d =
      some (if time_after b.max_boost_expires ((now + e.msecs_to_jiffies d) % ULONG_MOD)
        then b
        else
          { b with
            max_boost_expires := (now + e.msecs_to_jiffies d) % ULONG_MOD
            state := set_bit MAX_BOOST b.state
            max_unboost :=
              { pending := true
                expires := (now + skew + e.msecs_to_jiffies d) % ULONG_MOD }
            boost_waitq := b.boost_waitq + (if b.max_unboost.pending then 0 else 1) }) := by
  simp only [cpu_input_boost_kick_max, hon, Bool.false_eq_true, if_false]
  exact kick_max_eq fuel e now skew b d

/-- C6: extend-only expiry. With `SCREEN_OFF` clear, `cpu_input_boost_kick_max(d)` at
time `now` (whatever the number of ticks `skew` before the timer is armed) returns and
leaves in `max_boost_expires` the later (in the kernel's
`time_after` order) of the stored expiry and the candidate
`now + msecs_to_jiffies(d)`; the stored expiry is never moved to an earlier instant;
when the stored expiry is later than the candidate the whole driver state is
unchanged (no bit set, no timer rescheduled, no wake-up). While both instants are
below `2 ^ 63` (jiffies has not wrapped) the order is the numeric one: the new expiry
is the maximum of the two and is at least the old one. -/
theorem kick_max_extend_only (fuel : Nat) (e : Env) (now skew : Nat) (b : boost_drv)
    (d : Nat) (hon : test_bit SCREEN_OFF b.state = false) :
    ∃ b2, cpu_input_boost_kick_max (fuel + 1) e now skew b d = some b2 ∧
      b2.max_boost_expires
        = later_of b.max_boost_expires ((now + e.msecs_to_jiffies d) % ULONG_MOD) ∧
      time_after b.max_boost_expires b2.max_boost_expires = false ∧
      (time_after b.max_boost_expires ((now + e.msecs_to_jiffies d) % ULONG_MOD) = true →
        b2 = b) ∧
      (b.max_boost_expires < LONG_SIGN → now + e.msecs_to_jiffies d < LONG_SIGN →
        b2.max_boost_expires = max b.max_boost_expires (now + e.msecs_to_jiffies d) ∧
        b.max_boost_expires ≤ b2.max_boost_expires) := by
  refine ⟨_, kick_max_screen_on_eq fuel e now skew b d hon, ?_⟩
  · cases h : time_after b.max_boost_expires ((now + e.msecs_to_jiffies d) % ULONG_MOD)
    · refine ⟨by simp [later_of, h], by simpa using h, by simp, ?_⟩
      intro hb hc
      have hmod : (now + e.msecs_to_jiffies d) % ULONG_MOD = now + e.msecs_to_jiffies d := by
        apply Nat.mod_eq_of_lt
        simp only [LONG_SIGN] at hc
        simp only [ULONG_MOD]
        omega
      rw [hmod, time_after_eq_lt _ _ hb hc] at h
      have hle : b.max_boost_expires ≤ now + e.msecs_to_jiffies d := by
        simpa using h
      simp [hmod, hle]
    · refine ⟨by simp [later_of, h], by simp [time_after_self], by simp, ?_⟩
      intro hb hc
      have hmod : (now + e.msecs_to_jiffies d) % ULONG_MOD = now + e.msecs_to_jiffies d := by
        apply Nat.mod_eq_of_lt
        simp only [LONG_SIGN] at hc
        simp only [ULONG_MOD]
        omega
      rw [hmod, time_after_eq_lt _ _ hb hc] at h
      have hlt : now + e.msecs_to_jiffies d < b.max_boost_expires := by
        simpa using h
      simp [le_of_lt hlt]


/-- Witness for C6: `kick_max(200)` at tick 1000 gives `sample_boosted`; `kick_max(100)`
50 ticks later leaves the expiry at tick 1200 and changes nothing. -/
theorem kick_max_extend_only_witness :
    cpu_input_boost_kick_max 1 sample_env 1000 0 boost_drv_g 200 = some sample_boosted ∧
    test_bit SCREEN_OFF sample_boosted.state = false ∧
    ∃ b2, cpu_input_boost_kick_max 1 sample_env 1050 0 sample_boosted 100 = some b2 ∧
      b2.max_boost_expires = 1200 ∧ b2 = sample_boosted :=
  ⟨by decide, by decide,
   match kick_max_extend_only 0 sample_env 1050 0 sample_boosted 100 (by decide) with
   | ⟨b2, h1, h2, _, h4, _⟩ => ⟨b2, h1, h2.trans (by decide), h4 (by decide)⟩⟩

/-- Two instants of which neither is later than the other are equal. -/
theorem eq_of_not_time_after (a b : Nat) (ha : a < ULONG_MOD) (hb : b < ULONG_MOD)
    (hab : time_after a b = false) (hba : time_after b a = false) : a = b := by
  simp only [ULONG_MOD] at ha hb
  simp only [time_after, ULONG_MOD, LONG_SIGN, decide_eq_false_iff_not] at hab hba
  omega

/-- C7 as stated fails: `kick_max(200)` at tick 1000 and then the shorter
`kick_max(199)` at tick 1150, before the first boost has elapsed, moves the expiry to
tick 1349; it does not stay at `1000 + 200`. -/
theorem kick_max_shorter_request_can_extend :
    ((1000 : Nat) ≤ 1150 ∧ (199 : Nat) < 200 ∧
      1150 < 1000 + sample_env.msecs_to_jiffies 200 ∧
      test_bit SCREEN_OFF boost_drv_g.state = false ∧
      time_after boost_drv_g.max_boost_expires (1000 + sample_env.msecs_to_jiffies 200)
        = false) ∧
    cpu_input_boost_kick_max 1 sample_env 1000 0 boost_drv_g 200 = some sample_boosted ∧
    (cpu_input_boost_kick_max 1 sample_env 1150 0 sample_boosted 199).map
        (fun b2 => b2.max_boost_expires) = some 1349 ∧
    (1349 : Nat) ≠ 1000 + sample_env.msecs_to_jiffies 200 := by
  decide

/-- C7, amended: two calls `kick_max(d1)` at `t1` and `kick_max(d2)` at `t2` with the
screen on, `t1 ≤ t2`, `d2 < d1`, `t2` before `t1 + msecs_to_jiffies(d1)`, no later
expiry stored beforehand, and the second candidate `t2 + msecs_to_jiffies(d2)` not
later than the first candidate `t1 + msecs_to_jiffies(d1)`: both calls return and the
stored expiry is the first candidate, whatever the ticks `skew1`, `skew2` before the
timer is armed in each call. Candidates are the 64-bit sums the driver computes and
"later" is the kernel's `time_after`. -/
theorem kick_max_shorter_request_keeps_expiry (fuel1 fuel2 : Nat) (e : Env)
    (t1 t2 skew1 skew2 d1 d2 : Nat) (b : boost_drv)
    (hon : test_bit SCREEN_OFF b.state = false)
    (_ht : t1 ≤ t2) (_hd : d2 < d1) (_hbefore : t2 < t1 + e.msecs_to_jiffies d1)
    (hprev : time_after b.max_boost_expires ((t1 + e.msecs_to_jiffies d1) % ULONG_MOD)
      = false)
    (hcand : time_after ((t2 + e.msecs_to_jiffies d2) % ULONG_MOD)
      ((t1 + e.msecs_to_jiffies d1) % ULONG_MOD) = false) :
    ∃ b1 b2, cpu_input_boost_kick_max (fuel1 + 1) e t1 skew1 b d1 = some b1 ∧
      cpu_input_boost_kick_max (fuel2 + 1) e t2 skew2 b1 d2 = some b2 ∧
      b2.max_boost_expires = (t1 + e.msecs_to_jiffies d1) % ULONG_MOD := by
  have hon1 : test_bit SCREEN_OFF (set_bit MAX_BOOST b.state) = false := by
    rw [test_bit_set_bit, hon]
    decide
  have h1 := kick_max_screen_on_eq fuel1 e t1 skew1 b d1 hon
  simp only [hprev, Bool.false_eq_true, if_false] at h1
  refine ⟨_, _, h1, kick_max_screen_on_eq fuel2 e t2 skew2 _ d2 hon1, ?_⟩
  cases h : time_after ((t1 + e.msecs_to_jiffies d1) % ULONG_MOD)
      ((t2 + e.msecs_to_jiffies d2) % ULONG_MOD)
  · simp only [h, Bool.false_eq_true, if_false]
    exact eq_of_not_time_after _ _ (Nat.mod_lt _ (by decide)) (Nat.mod_lt _ (by decide))
      hcand h
  · simp only [h, if_true]

/-- Witness for C7 (amended): `kick_max(200)` at tick 1000, then `kick_max(100)` at tick
1050 (candidate 1150, not later than 1200): the expiry is tick 1200. -/
theorem kick_max_shorter_request_keeps_expiry_witness :
    (test_bit SCREEN_OFF boost_drv_g.state = false ∧ (1000 : Nat) ≤ 1050 ∧
      (100 : Nat) < 200 ∧ 1050 < 1000 + sample_env.msecs_to_jiffies 200 ∧
      time_after boost_drv_g.max_boost_expires
        ((1000 + sample_env.msecs_to_jiffies 200) % ULONG_MOD) = false ∧
      time_after ((1050 + sample_env.msecs_to_jiffies 100) % ULONG_MOD)
        ((1000 + sample_env.msecs_to_jiffies 200) % ULONG_MOD) = false) ∧
    ∃ b1 b2, cpu_input_boost_kick_max 1 sample_env 1000 0 boost_drv_g 200 = some b1 ∧
      cpu_input_boost_kick_max 1 sample_env 1050 0 b1 100 = some b2 ∧
      b2.max_boost_expires = 1200 :=
  ⟨by decide,
   match kick_max_shorter_request_keeps_expiry 0 0 sample_env 1000 1050 0 0 200 100
      boost_drv_g
      (by decide) (by decide) (by decide) (by decide) (by decide) (by decide) with
   | ⟨b1, b2, h1, h2, h3⟩ => ⟨b1, b2, h1, h2, h3.trans (by decide)⟩⟩

/-! ### Input kick: frame and idempotence -/

/-- C8: with `SCREEN_OFF` set, `cpu_input_boost_kick` returns the driver state it was
given: state bits, stored expiry, both delayed works and the wake-up count are
unchanged. -/
theorem kick_input_screen_off_noop (e : Env) (c : Params) (now : Nat) (b : boost_drv)
    (hoff : test_bit SCREEN_OFF b.state = true) :
    cpu_input_boost_kick e c now b = b := by
  simp [cpu_input_boost_kick, __cpu_input_boost_kick, hoff]

/-- Witness for C8: screen off while a max boost is stored (`SCREEN_OFF`, `MAX_BOOST`). -/
theorem kick_input_screen_off_noop_witness :
    test_bit SCREEN_OFF ({ sample_boosted with state := 5 } : boost_drv).state = true ∧
    cpu_input_boost_kick sample_env sample_params 1100 { sample_boosted with state := 5 }
      = { sample_boosted with state := 5 } :=
  ⟨by decide,
   kick_input_screen_off_noop sample_env sample_params 1100
     { sample_boosted with state := 5 } (by decide)⟩

/-- C9: idempotence of the input kick. With `SCREEN_OFF` clear and a non-zero
duration, the first `cpu_input_boost_kick` (at `t1`) leaves the input-unboost work
pending; a second one (at `t2`) issued while it is still pending leaves the state
word and the wake-up count as the first call left them and changes only the
input-unboost deadline, to `t2 + msecs_to_jiffies(input_boost_duration)`. -/
theorem kick_input_idempotent (e : Env) (c : Params) (t1 t2 : Nat) (b : boost_drv)
    (hon : test_bit SCREEN_OFF b.state = false) (hD : c.input_boost_duration ≠ 0) :
    (cpu_input_boost_kick e c t1 b).input_unboost.pending = true ∧
    (cpu_input_boost_kick e c t2 (cpu_input_boost_kick e c t1 b)).state
      = (cpu_input_boost_kick e c t1 b).state ∧
    (cpu_input_boost_kick e c t2 (cpu_input_boost_kick e c t1 b)).boost_waitq
      = (cpu_input_boost_kick e c t1 b).boost_waitq ∧
    cpu_input_boost_kick e c t2 (cpu_input_boost_kick e c t1 b)
      = { cpu_input_boost_kick e c t1 b with
          input_unboost :=
            { pending := true
              expires := (t2 + e.msecs_to_jiffies c.input_boost_duration) % ULONG_MOD } } := by
  have hon1 : test_bit SCREEN_OFF (set_bit INPUT_BOOST b.state) = false := by
    rw [test_bit_set_bit, hon]
    decide
  rw [kick_input_eq e c t1 b hon hD, kick_input_eq e c t2 _ hon1 hD]
  simp [set_bit_idem]

/-- Witness for C9: two input kicks at ticks 0 and 40 from the initial state. -/
theorem kick_input_idempotent_witness :
    (test_bit SCREEN_OFF boost_drv_g.state = false ∧
      sample_params.input_boost_duration ≠ 0) ∧
    (cpu_input_boost_kick sample_env sample_params 40
        (cpu_input_boost_kick sample_env sample_params 0 boost_drv_g)).state
      = (cpu_input_boost_kick sample_env sample_params 0 boost_drv_g).state ∧
    (cpu_input_boost_kick sample_env sample_params 40
        (cpu_input_boost_kick sample_env sample_params 0 boost_drv_g)).boost_waitq
      = (cpu_input_boost_kick sample_env sample_params 0 boost_drv_g).boost_waitq ∧
    (cpu_input_boost_kick sample_env sample_params 40
        (cpu_input_boost_kick sample_env sample_params 0 boost_drv_g)).input_unboost
      = { pending := true, expires := 140 } :=
  have h := kick_input_idempotent sample_env sample_params 0 40 boost_drv_g
    (by decide) (by decide)
  ⟨by decide, h.2.1, h.2.2.1, (congrArg boost_drv.input_unboost h.2.2.2).trans (by decide)⟩

/-- C10: effect of `cpu_input_boost_kick` with `SCREEN_OFF` clear. With a zero
`input_boost_duration` nothing changes. Otherwise `INPUT_BOOST` is set, every other
bit of the state word, the stored max-boost expiry, the max-unboost work and
`last_input_jiffies` are unchanged, the input-unboost work is pending with deadline
`now + msecs_to_jiffies(input_boost_duration)`, and the worker is woken exactly when
the input-unboost work was not pending before the call. -/
theorem kick_input_effect (e : Env) (c : Params) (now : Nat) (b : boost_drv)
    (hon : test_bit SCREEN_OFF b.state = false) :
    (c.input_boost_duration = 0 → cpu_input_boost_kick e c now b = b) ∧
    (c.input_boost_duration ≠ 0 →
      test_bit INPUT_BOOST (cpu_input_boost_kick e c now b).state = true ∧
      (∀ nr, nr ≠ INPUT_BOOST →
        test_bit nr (cpu_input_boost_kick e c now b).state = test_bit nr b.state) ∧
      (cpu_input_boost_kick e c now b).max_boost_expires = b.max_boost_expires ∧
      (cpu_input_boost_kick e c now b).max_unboost = b.max_unboost ∧
      (cpu_input_boost_kick e c now b).last_input_jiffies = b.last_input_jiffies ∧
      (cpu_input_boost_kick e c now b).input_unboost
        = { pending := true
            expires := (now + e.msecs_to_jiffies c.input_boost_duration) % ULONG_MOD } ∧
      (b.input_unboost.pending = false →
        (cpu_input_boost_kick e c now b).boost_waitq = b.boost_waitq + 1) ∧
      (b.input_unboost.pending = true →
        (cpu_input_boost_kick e c now b).boost_waitq = b.boost_waitq)) := by
  constructor
  · intro hz
    simp [cpu_input_boost_kick, __cpu_input_boost_kick, hz]
  · intro hD
    rw [kick_input_eq e c now b hon hD]
    refine ⟨?_, ?_, rfl, rfl, rfl, rfl, ?_, ?_⟩
    · simp [test_bit_set_bit]
    · intro nr hnr
      have hne : ¬ (INPUT_BOOST = nr) := fun h => hnr h.symm
      simp [test_bit_set_bit, hne]
    · intro hp
      simp [hp]
    · intro hp
      simp [hp]

/-- Witness for C10: a fresh input kick at tick 1100 while a max boost is in effect
(input-unboost work idle): `INPUT_BOOST` is set, `MAX_BOOST` stays, the timer is armed
for tick 1200 and the worker is woken once. -/
theorem kick_input_effect_witness :
    (test_bit SCREEN_OFF sample_boosted.state = false ∧
      sample_params.input_boost_duration ≠ 0 ∧
      sample_boosted.input_unboost.pending = false) ∧
    test_bit INPUT_BOOST
      (cpu_input_boost_kick sample_env sample_params 1100 sample_boosted).state = true ∧
    test_bit MAX_BOOST
      (cpu_input_boost_kick sample_env sample_params 1100 sample_boosted).state = true ∧
    (cpu_input_boost_kick sample_env sample_params 1100 sample_boosted).input_unboost
      = { pending := true, expires := 1200 } ∧
    (cpu_input_boost_kick sample_env sample_params 1100 sample_boosted).boost_waitq = 2 :=
  have h := (kick_input_effect sample_env sample_params 1100 sample_boosted
    (by decide)).2 (by decide)
  ⟨by decide, h.1, (h.2.1 MAX_BOOST (by decide)).trans (by decide), h.2.2.2.2.2.1,
    h.2.2.2.2.2.2.1 (by decide)⟩


/-! ### Max and wake kick: frame -/

/-- C13: with `SCREEN_OFF` set, `cpu_input_boost_kick_max` returns (with any fuel)
the driver state it was given, for every duration: state bits, stored expiry, both
delayed works and the wake-up count are unchanged. -/
theorem kick_max_screen_off_noop (fuel : Nat) (e : Env) (now skew : Nat) (b : boost_drv)
    (d : Nat) (hoff : test_bit SCREEN_OFF b.state = true) :
    cpu_input_boost_kick_max fuel e now skew b d = some b := by
  simp [cpu_input_boost_kick_max, hoff]

/-- Witness for C13: a request for 5000 ms at tick 1060 while the screen is off. -/
theorem kick_max_screen_off_noop_witness :
    test_bit SCREEN_OFF sample_blanked.state = true ∧
    cpu_input_boost_kick_max 1 sample_env 1060 0 sample_blanked 5000 = some sample_blanked :=
  ⟨by decide, kick_max_screen_off_noop 1 sample_env 1060 0 sample_blanked 5000 (by decide)⟩

/-- C14: with `SCREEN_OFF` clear, or with a zero `wake_boost_duration`,
`cpu_input_boost_kick_wake` returns (with any fuel) the driver state it was given:
`WAKE_BOOST` is not set, no other bit changes, the stored expiry and both delayed
works are unchanged and the worker is not woken. -/
theorem kick_wake_noop (fuel : Nat) (e : Env) (c : Params) (now skew : Nat)
    (b : boost_drv)
    (h : test_bit SCREEN_OFF b.state = false ∨ c.wake_boost_duration = 0) :
    cpu_input_boost_kick_wake fuel e c now skew b = some b := by
  rcases h with h | h
  · simp [cpu_input_boost_kick_wake, __cpu_input_boost_kick_wake, h]
  · simp [cpu_input_boost_kick_wake, __cpu_input_boost_kick_wake, h]

/-- Witness for C14: screen on (second disjunct false), and screen off with the wake
boost switched off. -/
theorem kick_wake_noop_witness :
    ((test_bit SCREEN_OFF sample_boosted.state = false ∨
        sample_params.wake_boost_duration = 0) ∧
      cpu_input_boost_kick_wake 1 sample_env sample_params 1100 0 sample_boosted
        = some sample_boosted) ∧
    ((test_bit SCREEN_OFF sample_blanked.state = false ∨
        sample_params_no_wake.wake_boost_duration = 0) ∧
      cpu_input_boost_kick_wake 1 sample_env sample_params_no_wake 1100 0 sample_blanked
        = some sample_blanked) :=
  ⟨⟨Or.inl (by decide),
     kick_wake_noop 1 sample_env sample_params 1100 0 sample_boosted (Or.inl (by decide))⟩,
   ⟨Or.inr rfl,
     kick_wake_noop 1 sample_env sample_params_no_wake 1100 0 sample_blanked (Or.inr rfl)⟩⟩

/-- Closed form of `__cpu_input_boost_kick_wake`: with any fuel left it returns. -/
theorem kick_wake_eq (fuel : Nat) (e : Env) (c : Params) (now skew : Nat)
    (b : boost_drv) :
    __cpu_input_boost_kick_wake (fuel + 1) e c now skew b =
      some (if !test_bit SCREEN_OFF b.state then b
        else if c.wake_boost_duration == 0 then b
        else if time_after b.max_boost_expires
            ((now + e.msecs_to_jiffies c.wake_boost_duration) % ULONG_MOD)
          then { b with state := set_bit WAKE_BOOST b.state }
        else
          { b with
            max_boost_expires := (now + e.msecs_to_jiffies c.wake_boost_duration) % ULONG_MOD
            state := set_bit MAX_BOOST (set_bit WAKE_BOOST b.state)
            max_unboost :=
              { pending := true
                expires :=
                  (now + skew + e.msecs_to_jiffies c.wake_boost_duration) % ULONG_MOD }
            boost_waitq := b.boost_waitq + (if b.max_unboost.pending then 0 else 1) }) := by
  simp only [__cpu_input_boost_kick_wake]
  split
  · rfl
  · split
    · rfl
    · rw [kick_max_eq]

/-! ### Display adapter -/

/-- C15: `fb_notifier_cb`. An action other than `FB_EARLY_EVENT_BLANK` returns the
driver state unchanged. An early-blank event with value `FB_BLANK_UNBLANK` returns
the state that `cpu_input_boost_kick_wake` produces from the prior state, with
`SCREEN_OFF` cleared afterwards. An early-blank event with any other value sets
`SCREEN_OFF` and wakes the worker once, whatever the prior state: every other bit of
the state word, the stored expiry, both delayed works and `last_input_jiffies` are
unchanged. -/
theorem fb_notifier_cb_effect (fuel : Nat) (e : Env) (k : fb_codes) (c : Params)
    (now skew : Nat) (b : boost_drv) :
    (∀ action blank, action ≠ k.FB_EARLY_EVENT_BLANK →
      fb_notifier_cb (fuel + 1) e k c now skew b action blank = some (NOTIFY_OK, b)) ∧
    (∃ b1, cpu_input_boost_kick_wake (fuel + 1) e c now skew b = some b1 ∧
      fb_notifier_cb (fuel + 1) e k c now skew b k.FB_EARLY_EVENT_BLANK k.FB_BLANK_UNBLANK
        = some (NOTIFY_OK, { b1 with state := clear_bit SCREEN_OFF b1.state })) ∧
    (∀ blank, blank ≠ k.FB_BLANK_UNBLANK →
      fb_notifier_cb (fuel + 1) e k c now skew b k.FB_EARLY_EVENT_BLANK blank
        = some (NOTIFY_OK,
            { b with state := set_bit SCREEN_OFF b.state
                     boost_waitq := b.boost_waitq + 1 }) ∧
      test_bit SCREEN_OFF (set_bit SCREEN_OFF b.state) = true ∧
      ∀ nr, nr ≠ SCREEN_OFF →
        test_bit nr (set_bit SCREEN_OFF b.state) = test_bit nr b.state) := by
  refine ⟨?_, ?_, ?_⟩
  · intro action blank ha
    simp [fb_notifier_cb, ha]
  · refine ⟨_, kick_wake_eq fuel e c now skew b, ?_⟩
    simp only [fb_notifier_cb, bne_self_eq_false, Bool.false_eq_true, if_false,
      beq_self_eq_true, if_true, kick_wake_eq]
  · intro blank hb
    refine ⟨?_, ?_, ?_⟩
    · simp [fb_notifier_cb, hb, wake_up]
    · simp [test_bit_set_bit]
    · intro nr hnr
      have hne : ¬ (SCREEN_OFF = nr) := fun h => hnr h.symm
      simp [test_bit_set_bit, hne]

/-- Witness for C15: on `sample_blanked` with a 100 ms wake boost at tick 1060, an
unrelated action (9) changes nothing, an unblank sets `WAKE_BOOST` and clears
`SCREEN_OFF` (state word 5 becomes 12), and on `sample_boosted` a blank (value 4)
sets `SCREEN_OFF` and wakes the worker. -/
theorem fb_notifier_cb_effect_witness :
    ((9 : Nat) ≠ sample_fb_codes.FB_EARLY_EVENT_BLANK ∧
      (4 : Int) ≠ sample_fb_codes.FB_BLANK_UNBLANK) ∧
    fb_notifier_cb 1 sample_env sample_fb_codes sample_params_short_wake 1060 0
      sample_blanked 9 0 = some (NOTIFY_OK, sample_blanked) ∧
    (∃ b1, cpu_input_boost_kick_wake 1 sample_env sample_params_short_wake 1060 0
        sample_blanked = some b1 ∧
      fb_notifier_cb 1 sample_env sample_fb_codes sample_params_short_wake 1060 0
        sample_blanked sample_fb_codes.FB_EARLY_EVENT_BLANK sample_fb_codes.FB_BLANK_UNBLANK
        = some (NOTIFY_OK, { b1 with state := clear_bit SCREEN_OFF b1.state })) ∧
    fb_notifier_cb 1 sample_env sample_fb_codes sample_params_short_wake 1060 0
      sample_blanked 0x10 0 = some (NOTIFY_OK, { sample_blanked with state := 12 }) ∧
    fb_notifier_cb 1 sample_env sample_fb_codes sample_params 1050 0 sample_boosted 0x10 4
      = some (NOTIFY_OK, sample_blanked) :=
  ⟨by decide,
   (fb_notifier_cb_effect 0 sample_env sample_fb_codes sample_params_short_wake 1060 0
      sample_blanked).1 9 0 (by decide),
   (fb_notifier_cb_effect 0 sample_env sample_fb_codes sample_params_short_wake 1060 0
      sample_blanked).2.1,
   by decide,
   (((fb_notifier_cb_effect 0 sample_env sample_fb_codes sample_params 1050 0
      sample_boosted).2.2 4 (by decide)).1).trans (by decide)⟩

/-! ### Last input instant -/

/-- C18: the input-event handler records the event instant in every state (also with
`SCREEN_OFF` set, where the kick does nothing), and
`cpu_input_boost_within_input(timeout_ms)` evaluated at `t2` on a state holding that
instant is `time_before(t2, last_input_jiffies + msecs_to_jiffies(timeout_ms))`;
while the instants are below `2 ^ 63` it is true exactly when
`t2 < now + msecs_to_jiffies(timeout_ms)`. -/
theorem input_event_records_instant (e : Env) (c : Params) (now t2 timeout_ms : Nat)
    (b b2 : boost_drv)
    (hlast : b2.last_input_jiffies = (cpu_input_boost_input_event e c now b).last_input_jiffies)
    (ht2 : t2 < LONG_SIGN) (hfit : now + e.msecs_to_jiffies timeout_ms < LONG_SIGN) :
    (cpu_input_boost_input_event e c now b).last_input_jiffies = now ∧
    (test_bit SCREEN_OFF b.state = true →
      cpu_input_boost_input_event e c now b = { b with last_input_jiffies := now }) ∧
    cpu_input_boost_within_input e t2 b2 timeout_ms
      = time_before t2 ((now + e.msecs_to_jiffies timeout_ms) % ULONG_MOD) ∧
    (cpu_input_boost_within_input e t2 b2 timeout_ms = true ↔
      t2 < now + e.msecs_to_jiffies timeout_ms) := by
  have hnow : (cpu_input_boost_input_event e c now b).last_input_jiffies = now := rfl
  rw [hnow] at hlast
  have hmod : (now + e.msecs_to_jiffies timeout_ms) % ULONG_MOD
      = now + e.msecs_to_jiffies timeout_ms := by
    apply Nat.mod_eq_of_lt
    simp only [LONG_SIGN] at hfit
    simp only [ULONG_MOD]
    omega
  refine ⟨rfl, ?_, ?_, ?_⟩
  · intro hoff
    simp [cpu_input_boost_input_event, __cpu_input_boost_kick, hoff]
  · simp [cpu_input_boost_within_input, hlast]
  · simp only [cpu_input_boost_within_input, hlast, hmod, time_before]
    rw [time_after_eq_lt _ _ hfit ht2]
    simp

/-- Witness for C18: an input event at tick 1060 with the screen off; with a timeout
of 500 ms the query is true at tick 1559 and false at tick 1560. -/
theorem input_event_records_instant_witness :
    (cpu_input_boost_input_event sample_env sample_params 1060 sample_blanked
        = { sample_blanked with last_input_jiffies := 1060 }) ∧
    (cpu_input_boost_within_input sample_env 1559
        (cpu_input_boost_input_event sample_env sample_params 1060 sample_blanked) 500
        = true ↔ 1559 < 1060 + sample_env.msecs_to_jiffies 500) ∧
    (cpu_input_boost_within_input sample_env 1560
        (cpu_input_boost_input_event sample_env sample_params 1060 sample_blanked) 500
        = true ↔ 1560 < 1060 + sample_env.msecs_to_jiffies 500) :=
  ⟨(input_event_records_instant sample_env sample_params 1060 1559 500 sample_blanked
      (cpu_input_boost_input_event sample_env sample_params 1060 sample_blanked) rfl
      (by decide) (by decide)).2.1 (by decide),
   (input_event_records_instant sample_env sample_params 1060 1559 500 sample_blanked
      (cpu_input_boost_input_event sample_env sample_params 1060 sample_blanked) rfl
      (by decide) (by decide)).2.2.2,
   (input_event_records_instant sample_env sample_params 1060 1560 500 sample_blanked
      (cpu_input_boost_input_event sample_env sample_params 1060 sample_blanked) rfl
      (by decide) (by decide)).2.2.2⟩

/-- C19 as stated fails: `cpu_input_boost_kick` at tick 1100 with the screen on and a
duration of 100 ms sets `INPUT_BOOST` (it is not a no-op) and leaves
`last_input_jiffies` at 0. -/
theorem kick_input_does_not_record_instant :
    (test_bit SCREEN_OFF sample_boosted.state = false ∧
      sample_params.input_boost_duration ≠ 0) ∧
    cpu_input_boost_kick sample_env sample_params 1100 sample_boosted ≠ sample_boosted ∧
    (cpu_input_boost_kick sample_env sample_params 1100 sample_boosted).last_input_jiffies
      = 0 ∧
    (cpu_input_boost_kick sample_env sample_params 1100 sample_boosted).last_input_jiffies
      ≠ 1100 := by
  decide

/-- C19, amended: every input event handled by `cpu_input_boost_input_event` with
`SCREEN_OFF` clear and a non-zero input-boost duration performs the kick and records
`last_input_jiffies = now`; the entry point `cpu_input_boost_kick` called alone
leaves `last_input_jiffies` as it was. -/
theorem input_event_kicks_and_records (e : Env) (c : Params) (now : Nat) (b : boost_drv)
    (hon : test_bit SCREEN_OFF b.state = false) (hD : c.input_boost_duration ≠ 0) :
    cpu_input_boost_input_event e c now b
      = { cpu_input_boost_kick e c now b with last_input_jiffies := now } ∧
    test_bit INPUT_BOOST (cpu_input_boost_input_event e c now b).state = true ∧
    (cpu_input_boost_input_event e c now b).last_input_jiffies = now ∧
    (cpu_input_boost_kick e c now b).last_input_jiffies = b.last_input_jiffies := by
  refine ⟨rfl, ?_, rfl, ?_⟩
  · have h := kick_input_eq e c now b hon hD
    simp only [cpu_input_boost_kick] at h
    simp [cpu_input_boost_input_event, h, test_bit_set_bit]
  · rw [kick_input_eq e c now b hon hD]

/-- Witness for C19 (amended): an input event at tick 1100 on `sample_boosted`. -/
theorem input_event_kicks_and_records_witness :
    (test_bit SCREEN_OFF sample_boosted.state = false ∧
      sample_params.input_boost_duration ≠ 0) ∧
    (cpu_input_boost_input_event sample_env sample_params 1100
      sample_boosted).last_input_jiffies = 1100 ∧
    (cpu_input_boost_kick sample_env sample_params 1100 sample_boosted).last_input_jiffies
      = sample_boosted.last_input_jiffies :=
  have h := input_event_kicks_and_records sample_env sample_params 1100 sample_boosted
    (by decide) (by decide)
  ⟨by decide, h.2.2.1, h.2.2.2⟩

/-! ### Invariants of operation sequences -/

/-- What `__cpu_input_boost_kick` leaves alone, and the input-unboost work it keeps in
step with `INPUT_BOOST`. -/
theorem kick_input_frame (e : Env) (c : Params) (now : Nat) (b : boost_drv)
    (hF : b.input_unboost.pending = test_bit INPUT_BOOST b.state) :
    (__cpu_input_boost_kick e c now b).max_unboost = b.max_unboost ∧
    (__cpu_input_boost_kick e c now b).max_boost_expires = b.max_boost_expires ∧
    test_bit MAX_BOOST (__cpu_input_boost_kick e c now b).state
      = test_bit MAX_BOOST b.state ∧
    test_bit WAKE_BOOST (__cpu_input_boost_kick e c now b).state
      = test_bit WAKE_BOOST b.state ∧
    (__cpu_input_boost_kick e c now b).input_unboost.pending
      = test_bit INPUT_BOOST (__cpu_input_boost_kick e c now b).state := by
  by_cases hoff : test_bit SCREEN_OFF b.state = true
  · simp [__cpu_input_boost_kick, hoff, hF]
  · by_cases hD : c.input_boost_duration = 0
    · simp [__cpu_input_boost_kick, hD, hF]
    · have hon : test_bit SCREEN_OFF b.state = false := by simpa using hoff
      have h := kick_input_eq e c now b hon hD
      simp only [cpu_input_boost_kick] at h
      rw [h]
      simp [test_bit_set_bit, INPUT_BOOST, MAX_BOOST, WAKE_BOOST]

/-- An operation that leaves the max-boost part of the state alone keeps
`driver_inv` as the clock advances. -/
theorem driver_inv_of_frame (t now : Nat) (b b2 : boost_drv) (hinv : driver_inv t b)
    (ht : t ≤ now)
    (hwork : b2.max_unboost = b.max_unboost)
    (hexp : b2.max_boost_expires = b.max_boost_expires)
    (hmax : test_bit MAX_BOOST b2.state = test_bit MAX_BOOST b.state)
    (hwake : test_bit WAKE_BOOST b2.state = test_bit WAKE_BOOST b.state)
    (hF : b2.input_unboost.pending = test_bit INPUT_BOOST b2.state) :
    driver_inv now b2 := by
  obtain ⟨hA, hB, hC, hD, hE, _⟩ := hinv
  refine ⟨?_, ?_, ?_, ?_, ?_, hF⟩
  · rw [hwork, hmax]; exact hA
  · rw [hwake, hmax]; exact hB
  · rw [hwork, hexp]; exact hC
  · rw [hexp]; exact hD
  · rw [hwork, hexp]
    intro hp
    exact le_trans (hE hp) ht

/-- The two ways `__cpu_input_boost_kick_max` can return. -/
theorem kick_max_cases (fuel : Nat) (e : Env) (now skew : Nat) (b b2 : boost_drv)
    (d : Nat) (h : __cpu_input_boost_kick_max fuel e now skew b d = some b2) :
    (time_after b.max_boost_expires ((now + e.msecs_to_jiffies d) % ULONG_MOD) = true ∧
      b2 = b) ∨
    (time_after b.max_boost_expires ((now + e.msecs_to_jiffies d) % ULONG_MOD) = false ∧
      b2 = { b with
        max_boost_expires := (now + e.msecs_to_jiffies d) % ULONG_MOD
        state := set_bit MAX_BOOST b.state
        max_unboost :=
          { pending := true, expires := (now + skew + e.msecs_to_jiffies d) % ULONG_MOD }
        boost_waitq := b.boost_waitq + (if b.max_unboost.pending then 0 else 1) }) := by
  cases fuel with
  | zero => simp [__cpu_input_boost_kick_max, max_boost_expires_loop] at h
  | succ n =>
    rw [kick_max_eq] at h
    cases hta : time_after b.max_boost_expires ((now + e.msecs_to_jiffies d) % ULONG_MOD)
    · right
      simp only [hta, Bool.false_eq_true, if_false, Option.some.injEq] at h
      exact ⟨rfl, h.symm⟩
    · left
      simp only [hta, if_true, Option.some.injEq] at h
      exact ⟨rfl, h.symm⟩

/-- A max-boost update at a time not earlier than the last operation leaves
`MAX_BOOST` set: either it stores the candidate, or a later expiry is stored, whose
timer is then still pending. -/
theorem kick_max_sets_max (fuel : Nat) (e : Env) (t now skew : Nat) (b b2 : boost_drv)
    (d : Nat)
    (hA : b.max_unboost.pending = test_bit MAX_BOOST b.state)
    (hD : b.max_boost_expires < LONG_SIGN)
    (hE : b.max_unboost.pending = false → b.max_boost_expires ≤ t)
    (ht : t ≤ now) (hw : now + e.msecs_to_jiffies d < LONG_SIGN)
    (h : __cpu_input_boost_kick_max fuel e now skew b d = some b2) :
    test_bit MAX_BOOST b2.state = true := by
  have hmod : (now + e.msecs_to_jiffies d) % ULONG_MOD = now + e.msecs_to_jiffies d := by
    apply Nat.mod_eq_of_lt
    simp only [LONG_SIGN] at hw
    simp only [ULONG_MOD]
    omega
  rcases kick_max_cases fuel e now skew b b2 d h with ⟨hta, hb2⟩ | ⟨_, hb2⟩
  · subst hb2
    rw [hmod, time_after_eq_lt _ _ hD hw] at hta
    have hlt : now + e.msecs_to_jiffies d < b2.max_boost_expires := by simpa using hta
    have hp : b2.max_unboost.pending = true := by
      cases hpp : b2.max_unboost.pending
      · have := hE hpp
        omega
      · rfl
    rw [← hA]
    exact hp
  · subst hb2
    simp [test_bit_set_bit]

/-- A max-boost update inside the window keeps `driver_inv`; no assumption on
`WAKE_BOOST` is needed, because the update leaves `MAX_BOOST` set. -/
theorem kick_max_keeps_inv (fuel : Nat) (e : Env) (t now skew : Nat) (b b2 : boost_drv)
    (d : Nat)
    (hA : b.max_unboost.pending = test_bit MAX_BOOST b.state)
    (hC : b.max_unboost.pending = true →
      b.max_boost_expires ≤ b.max_unboost.expires ∧ b.max_unboost.expires < LONG_SIGN)
    (hD : b.max_boost_expires < LONG_SIGN)
    (hE : b.max_unboost.pending = false → b.max_boost_expires ≤ t)
    (hF : b.input_unboost.pending = test_bit INPUT_BOOST b.state)
    (ht : t ≤ now) (hw : now + skew + e.msecs_to_jiffies d < LONG_SIGN)
    (h : __cpu_input_boost_kick_max fuel e now skew b d = some b2) :
    driver_inv now b2 := by
  have hw0 : now + e.msecs_to_jiffies d < LONG_SIGN := by omega
  have hmaxset := kick_max_sets_max fuel e t now skew b b2 d hA hD hE ht hw0 h
  have hmod : (now + e.msecs_to_jiffies d) % ULONG_MOD = now + e.msecs_to_jiffies d := by
    apply Nat.mod_eq_of_lt
    simp only [LONG_SIGN] at hw0
    simp only [ULONG_MOD]
    omega
  have hmod2 : (now + skew + e.msecs_to_jiffies d) % ULONG_MOD
      = now + skew + e.msecs_to_jiffies d := by
    apply Nat.mod_eq_of_lt
    simp only [LONG_SIGN] at hw
    simp only [ULONG_MOD]
    omega
  rcases kick_max_cases fuel e now skew b b2 d h with ⟨_, hb2⟩ | ⟨_, hb2⟩
  · subst hb2
    have hp : b2.max_unboost.pending = true := by rw [hA]; exact hmaxset
    refine ⟨hA, fun _ => hmaxset, hC, hD, ?_, hF⟩
    intro hpf
    rw [hp] at hpf
    exact absurd hpf (by simp)
  · subst hb2
    refine ⟨?_, ?_, ?_, ?_, ?_, ?_⟩
    · simp [test_bit_set_bit]
    · intro _
      simp [test_bit_set_bit]
    · intro _
      show (now + e.msecs_to_jiffies d) % ULONG_MOD
          ≤ (now + skew + e.msecs_to_jiffies d) % ULONG_MOD ∧
        (now + skew + e.msecs_to_jiffies d) % ULONG_MOD < LONG_SIGN
      rw [hmod, hmod2]
      exact ⟨by omega, hw⟩
    · show (now + e.msecs_to_jiffies d) % ULONG_MOD < LONG_SIGN
      rw [hmod]
      exact hw0
    · intro hpf
      exact absurd hpf (by simp)
    · simpa [test_bit_set_bit, INPUT_BOOST, MAX_BOOST] using hF

/-- A wake kick keeps `driver_inv`, at a time not earlier than the last operation. -/
theorem kick_wake_keeps_inv (fuel : Nat) (e : Env) (c : Params) (t now skew : Nat)
    (b b2 : boost_drv) (hinv : driver_inv t b) (ht : t ≤ now)
    (hw : now + skew + e.msecs_to_jiffies c.wake_boost_duration < LONG_SIGN)
    (h : __cpu_input_boost_kick_wake fuel e c now skew b = some b2) :
    driver_inv now b2 := by
  simp only [__cpu_input_boost_kick_wake] at h
  split at h
  · injection h with h
    subst h
    exact driver_inv_of_frame t now b b hinv ht rfl rfl rfl rfl hinv.2.2.2.2.2
  · split at h
    · injection h with h
      subst h
      exact driver_inv_of_frame t now b b hinv ht rfl rfl rfl rfl hinv.2.2.2.2.2
    · obtain ⟨hA, _, hC, hD, hE, hF⟩ := hinv
      refine kick_max_keeps_inv fuel e t now skew
        { b with state := set_bit WAKE_BOOST b.state } b2 c.wake_boost_duration ?_ hC hD hE
        ?_ ht hw h
      · simpa [test_bit_set_bit, WAKE_BOOST, MAX_BOOST] using hA
      · simpa [test_bit_set_bit, WAKE_BOOST, INPUT_BOOST] using hF

/-- Every operation keeps `driver_inv` when it runs at a time not earlier than the
last operation and inside the window of `ops_timed`. -/
theorem driver_inv_step (e : Env) (k : fb_codes) (t now : Nat) (b b2 : boost_drv)
    (op : driver_op) (hinv : driver_inv t b) (ht : t ≤ now)
    (hw : now + op_delay e op < LONG_SIGN) (h : run_op e k now b op = some b2) :
    driver_inv now b2 := by
  cases op with
  | kick_input c =>
    simp only [run_op, cpu_input_boost_kick, Option.some.injEq] at h
    subst h
    obtain ⟨h1, h2, h3, h4, h5⟩ := kick_input_frame e c now b hinv.2.2.2.2.2
    exact driver_inv_of_frame t now b _ hinv ht h1 h2 h3 h4 h5
  | input_event c =>
    simp only [run_op, cpu_input_boost_input_event, Option.some.injEq] at h
    subst h
    obtain ⟨h1, h2, h3, h4, h5⟩ := kick_input_frame e c now b hinv.2.2.2.2.2
    exact driver_inv_of_frame t now b _ hinv ht h1 h2 h3 h4 h5
  | kick_max fuel skew d =>
    simp only [run_op, cpu_input_boost_kick_max] at h
    split at h
    · injection h with h
      subst h
      exact driver_inv_of_frame t now b b hinv ht rfl rfl rfl rfl hinv.2.2.2.2.2
    · obtain ⟨hA, _, hC, hD, hE, hF⟩ := hinv
      have hw2 : now + skew + e.msecs_to_jiffies d < LONG_SIGN := by
        simp only [op_delay] at hw
        omega
      exact kick_max_keeps_inv fuel e t now skew b b2 d hA hC hD hE hF ht hw2 h
  | kick_wake fuel skew c =>
    simp only [run_op, cpu_input_boost_kick_wake] at h
    have hw2 : now + skew + e.msecs_to_jiffies c.wake_boost_duration < LONG_SIGN := by
      simp only [op_delay] at hw
      omega
    exact kick_wake_keeps_inv fuel e c t now skew b b2 hinv ht hw2 h
  | fb_event fuel skew c action blank =>
    simp only [run_op, fb_notifier_cb] at h
    split at h
    · simp only [Option.map_some', Option.some.injEq] at h
      subst h
      exact driver_inv_of_frame t now b b hinv ht rfl rfl rfl rfl hinv.2.2.2.2.2
    · split at h
      · cases hkw : __cpu_input_boost_kick_wake fuel e c now skew b with
        | none => simp [hkw] at h
        | some b1 =>
          simp only [hkw, Option.map_some', Option.some.injEq] at h
          subst h
          have hw2 : now + skew + e.msecs_to_jiffies c.wake_boost_duration < LONG_SIGN := by
            simp only [op_delay] at hw
            omega
          have hinv1 := kick_wake_keeps_inv fuel e c t now skew b b1 hinv ht hw2 hkw
          refine driver_inv_of_frame now now b1 _ hinv1 (le_refl _) rfl rfl ?_ ?_ ?_
          · simp [test_bit_clear_bit, SCREEN_OFF, MAX_BOOST]
          · simp [test_bit_clear_bit, SCREEN_OFF, WAKE_BOOST]
          · simpa [test_bit_clear_bit, SCREEN_OFF, INPUT_BOOST] using hinv1.2.2.2.2.2
      · simp only [Option.map_some', Option.some.injEq] at h
        subst h
        refine driver_inv_of_frame t now b _ hinv ht rfl rfl ?_ ?_ ?_
        · simp [wake_up, test_bit_set_bit, SCREEN_OFF, MAX_BOOST]
        · simp [wake_up, test_bit_set_bit, SCREEN_OFF, WAKE_BOOST]
        · simpa [wake_up, test_bit_set_bit, SCREEN_OFF, INPUT_BOOST] using hinv.2.2.2.2.2
  | input_unboost_fire =>
    simp only [run_op, input_unboost_fire] at h
    split at h
    · injection h with h
      subst h
      refine driver_inv_of_frame t now b _ hinv ht rfl rfl ?_ ?_ ?_
      · simp [input_unboost_worker, wake_up, test_bit_clear_bit, INPUT_BOOST, MAX_BOOST]
      · simp [input_unboost_worker, wake_up, test_bit_clear_bit, INPUT_BOOST, WAKE_BOOST]
      · simp [input_unboost_worker, wake_up, test_bit_clear_bit]
    · exact absurd h (by simp)
  | max_unboost_fire =>
    simp only [run_op, max_unboost_fire] at h
    split at h
    · rename_i hdue
      injection h with h
      subst h
      obtain ⟨_, _, hC, hD, _, hF⟩ := hinv
      simp only [delayed_work_due, Bool.and_eq_true, Bool.not_eq_true'] at hdue
      have hnow : now < LONG_SIGN := by
        simp only [op_delay] at hw
        omega
      obtain ⟨hdl, hdlfit⟩ := hC hdue.1
      have hcmp := hdue.2
      rw [time_before, time_after_eq_lt _ _ hdlfit hnow] at hcmp
      have hle2 : b.max_unboost.expires ≤ now := by simpa using hcmp
      have hle : b.max_boost_expires ≤ now := le_trans hdl hle2
      refine ⟨?_, ?_, ?_, hD, fun _ => hle, ?_⟩
      · simp [max_unboost_worker, wake_up, test_bit_clear_bit, MAX_BOOST, WAKE_BOOST]
      · simp [max_unboost_worker, wake_up, test_bit_clear_bit, MAX_BOOST, WAKE_BOOST]
      · intro hp
        simp [max_unboost_worker, wake_up] at hp
      · simpa [max_unboost_worker, wake_up, test_bit_clear_bit, MAX_BOOST, WAKE_BOOST,
          INPUT_BOOST] using hF
    · exact absurd h (by simp)

/-- The initial driver state satisfies `driver_inv` at every time. -/
theorem driver_inv_init (t : Nat) : driver_inv t boost_drv_g := by
  refine ⟨by decide, by decide, by decide, by decide, ?_, by decide⟩
  intro _
  exact Nat.zero_le t

/-- Every state reached by a timed sequence of operations satisfies `driver_inv` at
the time of the last operation. -/
theorem driver_inv_run_ops (e : Env) (k : fb_codes) (ops : List (Nat × driver_op)) :
    ∀ (t : Nat) (b b2 : boost_drv), driver_inv t b → ops_timed e t ops = true →
      run_ops e k ops b = some b2 → driver_inv (last_time t ops) b2 := by
  induction ops with
  | nil =>
    intro t b b2 hinv _ hrun
    simp only [run_ops, Option.some.injEq] at hrun
    subst hrun
    exact hinv
  | cons hd rest ih =>
    intro t b b2 hinv htimed hrun
    obtain ⟨now, op⟩ := hd
    simp only [ops_timed, Bool.and_eq_true, decide_eq_true_eq] at htimed
    simp only [run_ops] at hrun
    cases hop : run_op e k now b op with
    | none => simp [hop] at hrun
    | some b1 =>
      simp only [hop] at hrun
      exact ih now b1 b2 (driver_inv_step e k t now b b1 op hinv htimed.1.1 htimed.1.2 hop)
        htimed.2 hrun

/-- C11: in every state reached from the initial state by a timed sequence of whole
operations, if `SCREEN_OFF` is set and `wake_boost_duration` is not zero, then
`cpu_input_boost_kick_wake` (at a time not earlier than the last operation) returns
a state in which `WAKE_BOOST` and `MAX_BOOST` are both set. That includes the case in
which a later expiry is stored and the max-boost update is skipped: then only
`WAKE_BOOST` is added and `MAX_BOOST` was set already. -/
theorem kick_wake_sets_wake_and_max (fuel : Nat) (e : Env) (k : fb_codes) (c : Params)
    (t0 now skew : Nat) (ops : List (Nat × driver_op)) (b : boost_drv)
    (htimed : ops_timed e t0 ops = true)
    (hrun : run_ops e k ops boost_drv_g = some b)
    (hoff : test_bit SCREEN_OFF b.state = true)
    (hdur : c.wake_boost_duration ≠ 0)
    (hnow : last_time t0 ops ≤ now)
    (hw : now + e.msecs_to_jiffies c.wake_boost_duration < LONG_SIGN) :
    ∃ b2, cpu_input_boost_kick_wake (fuel + 1) e c now skew b = some b2 ∧
      test_bit WAKE_BOOST b2.state = true ∧ test_bit MAX_BOOST b2.state = true ∧
      (time_after b.max_boost_expires
          ((now + e.msecs_to_jiffies c.wake_boost_duration) % ULONG_MOD) = true →
        b2 = { b with state := set_bit WAKE_BOOST b.state } ∧
        test_bit MAX_BOOST b.state = true) := by
  have hinv := driver_inv_run_ops e k ops t0 boost_drv_g b (driver_inv_init t0) htimed hrun
  obtain ⟨hA, _, hC, hD, hE, hF⟩ := hinv
  have hkw := kick_wake_eq fuel e c now skew b
  simp only [hoff, Bool.not_true, Bool.false_eq_true, if_false, beq_iff_eq, hdur] at hkw
  have hkm : __cpu_input_boost_kick_max (fuel + 1) e now skew
      { b with state := set_bit WAKE_BOOST b.state } c.wake_boost_duration = some _ :=
    kick_max_eq fuel e now skew _ c.wake_boost_duration
  have hmax := kick_max_sets_max (fuel + 1) e (last_time t0 ops) now skew
    { b with state := set_bit WAKE_BOOST b.state } _ c.wake_boost_duration
    (by simpa [test_bit_set_bit, WAKE_BOOST, MAX_BOOST] using hA) hD hE hnow hw hkm
  refine ⟨_, hkw, ?_, ?_, ?_⟩
  · cases hta : time_after b.max_boost_expires
        ((now + e.msecs_to_jiffies c.wake_boost_duration) % ULONG_MOD) <;>
      simp [test_bit_set_bit]
  · cases hta : time_after b.max_boost_expires
        ((now + e.msecs_to_jiffies c.wake_boost_duration) % ULONG_MOD)
    · simp [test_bit_set_bit]
    · simpa [hta, test_bit_set_bit, WAKE_BOOST, MAX_BOOST] using hmax
  · intro hta
    refine ⟨by simp [hta], ?_⟩
    simpa [hta, test_bit_set_bit, WAKE_BOOST, MAX_BOOST] using hmax

/-- Witness for C11: after `sample_ops` (max boost until tick 1200, then display
blank) a wake kick of 100 ms at tick 1060 is skipped by the max-boost update
(candidate 1160) and still leaves `WAKE_BOOST` and `MAX_BOOST` set. -/
theorem kick_wake_sets_wake_and_max_witness :
    (ops_timed sample_env 0 sample_ops = true ∧
      run_ops sample_env sample_fb_codes sample_ops boost_drv_g = some sample_blanked ∧
      test_bit SCREEN_OFF sample_blanked.state = true ∧
      sample_params_short_wake.wake_boost_duration ≠ 0 ∧
      last_time 0 sample_ops ≤ 1060 ∧
      1060 + sample_env.msecs_to_jiffies sample_params_short_wake.wake_boost_duration
        < LONG_SIGN ∧
      time_after sample_blanked.max_boost_expires
        ((1060 + sample_env.msecs_to_jiffies sample_params_short_wake.wake_boost_duration)
          % ULONG_MOD) = true) ∧
    ∃ b2, cpu_input_boost_kick_wake 1 sample_env sample_params_short_wake 1060 0
        sample_blanked = some b2 ∧
      test_bit WAKE_BOOST b2.state = true ∧ test_bit MAX_BOOST b2.state = true ∧
      b2 = { sample_blanked with state := set_bit WAKE_BOOST sample_blanked.state } :=
  ⟨by decide,
   match kick_wake_sets_wake_and_max 0 sample_env sample_fb_codes sample_params_short_wake
      0 1060 0 sample_ops sample_blanked (by decide) (by decide) (by decide) (by decide)
      (by decide) (by decide) with
   | ⟨b2, h1, h2, h3, h4⟩ => ⟨b2, h1, h2, h3, (h4 (by decide)).1⟩⟩

/-- A pending max-unboost work is due at its own deadline; firing drops the pending
flag and runs `max_unboost_worker`. -/
theorem max_unboost_fire_at_deadline (b : boost_drv)
    (hp : b.max_unboost.pending = true) :
    max_unboost_fire b.max_unboost.expires b
      = some (max_unboost_worker
          { b with max_unboost := { b.max_unboost with pending := false } }) := by
  simp [max_unboost_fire, delayed_work_due, time_before, time_after_self, hp]

/-- C12: in every state reached from the initial state by a timed sequence of whole
operations, `WAKE_BOOST` set implies `MAX_BOOST` set. The max-unboost fire (possible
at the deadline whenever the work is pending) clears `MAX_BOOST` and `WAKE_BOOST`
together and leaves every other bit of the state word, `SCREEN_OFF` and
`INPUT_BOOST` among them, unchanged. -/
theorem wake_boost_implies_max_boost (e : Env) (k : fb_codes) (t0 : Nat)
    (ops : List (Nat × driver_op)) (b : boost_drv)
    (htimed : ops_timed e t0 ops = true)
    (hrun : run_ops e k ops boost_drv_g = some b) :
    (test_bit WAKE_BOOST b.state = true → test_bit MAX_BOOST b.state = true) ∧
    (b.max_unboost.pending = true →
      ∃ b2, max_unboost_fire b.max_unboost.expires b = some b2) ∧
    (∀ now b2, max_unboost_fire now b = some b2 →
      test_bit MAX_BOOST b2.state = false ∧ test_bit WAKE_BOOST b2.state = false ∧
      (∀ nr, nr ≠ MAX_BOOST → nr ≠ WAKE_BOOST →
        test_bit nr b2.state = test_bit nr b.state) ∧
      test_bit SCREEN_OFF b2.state = test_bit SCREEN_OFF b.state ∧
      test_bit INPUT_BOOST b2.state = test_bit INPUT_BOOST b.state) := by
  have hinv := driver_inv_run_ops e k ops t0 boost_drv_g b (driver_inv_init t0) htimed hrun
  refine ⟨hinv.2.1, ?_, ?_⟩
  · intro hp
    exact ⟨_, max_unboost_fire_at_deadline b hp⟩
  · intro now b2 hfire
    simp only [max_unboost_fire] at hfire
    split at hfire
    · injection hfire with hfire
      subst hfire
      refine ⟨?_, ?_, ?_, ?_, ?_⟩
      · simp [max_unboost_worker, wake_up, test_bit_clear_bit, MAX_BOOST, WAKE_BOOST]
      · simp [max_unboost_worker, wake_up, test_bit_clear_bit]
      · intro nr h1 h2
        have h1' : ¬ (MAX_BOOST = nr) := fun h => h1 h.symm
        have h2' : ¬ (WAKE_BOOST = nr) := fun h => h2 h.symm
        simp [max_unboost_worker, wake_up, test_bit_clear_bit, h1', h2']
      · simp [max_unboost_worker, wake_up, test_bit_clear_bit, MAX_BOOST, WAKE_BOOST,
          SCREEN_OFF]
      · simp [max_unboost_worker, wake_up, test_bit_clear_bit, MAX_BOOST, WAKE_BOOST,
          INPUT_BOOST]
    · exact absurd hfire (by simp)

/-- Witness for C12: after `sample_ops_wake` the state word is 13 (`SCREEN_OFF`,
`MAX_BOOST`, `WAKE_BOOST`); the max-unboost fire at tick 1200 clears both boost bits
and keeps `SCREEN_OFF`. -/
theorem wake_boost_implies_max_boost_witness :
    (ops_timed sample_env 0 sample_ops_wake = true ∧
      run_ops sample_env sample_fb_codes sample_ops_wake boost_drv_g = some sample_woken ∧
      test_bit WAKE_BOOST sample_woken.state = true ∧
      sample_woken.max_unboost.pending = true) ∧
    test_bit MAX_BOOST sample_woken.state = true ∧
    ∃ b2, max_unboost_fire 1200 sample_woken = some b2 ∧
      test_bit MAX_BOOST b2.state = false ∧ test_bit WAKE_BOOST b2.state = false ∧
      test_bit SCREEN_OFF b2.state = true :=
  have h := wake_boost_implies_max_boost sample_env sample_fb_codes 0 sample_ops_wake
    sample_woken (by decide) (by decide)
  ⟨by decide, h.1 (by decide),
   match h.2.1 (by decide) with
   | ⟨b2, hb2⟩ =>
     ⟨b2, hb2, (h.2.2 _ b2 hb2).1, (h.2.2 _ b2 hb2).2.1,
       (h.2.2 _ b2 hb2).2.2.2.1.trans (by decide)⟩⟩

/-! ### Max-unboost deadline -/

/-- A relation `P deadline expiry` that holds of the pair a max-boost update writes
(timer armed `skew` ticks after the candidate expiry was computed) is kept by
`__cpu_input_boost_kick_max` for a pending max-unboost work, at any time. -/
theorem kick_max_keeps_deadline (P : Nat → Nat → Prop) (fuel : Nat) (e : Env)
    (now skew : Nat) (b b2 : boost_drv) (d : Nat)
    (hnew : ∀ j, P ((now + skew + j) % ULONG_MOD) ((now + j) % ULONG_MOD))
    (hC : b.max_unboost.pending = true → P b.max_unboost.expires b.max_boost_expires)
    (h : __cpu_input_boost_kick_max fuel e now skew b d = some b2) :
    b2.max_unboost.pending = true → P b2.max_unboost.expires b2.max_boost_expires := by
  rcases kick_max_cases fuel e now skew b b2 d h with ⟨_, hb2⟩ | ⟨_, hb2⟩
  · subst hb2
    exact hC
  · subst hb2
    intro _
    exact hnew (e.msecs_to_jiffies d)

/-- The same for `__cpu_input_boost_kick_wake`. -/
theorem kick_wake_keeps_deadline (P : Nat → Nat → Prop) (fuel : Nat) (e : Env)
    (c : Params) (now skew : Nat) (b b2 : boost_drv)
    (hnew : ∀ j, P ((now + skew + j) % ULONG_MOD) ((now + j) % ULONG_MOD))
    (hC : b.max_unboost.pending = true → P b.max_unboost.expires b.max_boost_expires)
    (h : __cpu_input_boost_kick_wake fuel e c now skew b = some b2) :
    b2.max_unboost.pending = true → P b2.max_unboost.expires b2.max_boost_expires := by
  simp only [__cpu_input_boost_kick_wake] at h
  split at h
  · injection h with h
    subst h
    exact hC
  · split at h
    · injection h with h
      subst h
      exact hC
    · exact kick_max_keeps_deadline P fuel e now skew
        { b with state := set_bit WAKE_BOOST b.state } b2 c.wake_boost_duration hnew hC h

/-- `__cpu_input_boost_kick` does not touch the max-unboost work or the stored
expiry. -/
theorem kick_input_keeps_max_part (e : Env) (c : Params) (now : Nat) (b : boost_drv) :
    (__cpu_input_boost_kick e c now b).max_unboost = b.max_unboost ∧
    (__cpu_input_boost_kick e c now b).max_boost_expires = b.max_boost_expires := by
  by_cases hoff : test_bit SCREEN_OFF b.state = true
  · simp [__cpu_input_boost_kick, hoff]
  · by_cases hD : c.input_boost_duration = 0
    · simp [__cpu_input_boost_kick, hD]
    · have hon : test_bit SCREEN_OFF b.state = false := by simpa using hoff
      have h := kick_input_eq e c now b hon hD
      simp only [cpu_input_boost_kick] at h
      rw [h]
      exact ⟨rfl, rfl⟩

/-- Every operation, run at any time, keeps a relation `P deadline expiry` of a
pending max-unboost work, provided `P` holds of the pair a max-boost update with the
clock ticks of this operation writes. -/
theorem deadline_step (P : Nat → Nat → Prop) (e : Env) (k : fb_codes) (now : Nat)
    (b b2 : boost_drv) (op : driver_op)
    (hnew : ∀ j, P ((now + op_skew op + j) % ULONG_MOD) ((now + j) % ULONG_MOD))
    (hC : b.max_unboost.pending = true → P b.max_unboost.expires b.max_boost_expires)
    (h : run_op e k now b op = some b2) :
    b2.max_unboost.pending = true → P b2.max_unboost.expires b2.max_boost_expires := by
  cases op with
  | kick_input c =>
    simp only [run_op, cpu_input_boost_kick, Option.some.injEq] at h
    subst h
    obtain ⟨h1, h2⟩ := kick_input_keeps_max_part e c now b
    rw [h1, h2]
    exact hC
  | input_event c =>
    simp only [run_op, cpu_input_boost_input_event, Option.some.injEq] at h
    subst h
    obtain ⟨h1, h2⟩ := kick_input_keeps_max_part e c now b
    show (__cpu_input_boost_kick e c now b).max_unboost.pending = true →
      P (__cpu_input_boost_kick e c now b).max_unboost.expires
        (__cpu_input_boost_kick e c now b).max_boost_expires
    rw [h1, h2]
    exact hC
  | kick_max fuel skew d =>
    simp only [op_skew] at hnew
    simp only [run_op, cpu_input_boost_kick_max] at h
    split at h
    · injection h with h
      subst h
      exact hC
    · exact kick_max_keeps_deadline P fuel e now skew b b2 d hnew hC h
  | kick_wake fuel skew c =>
    simp only [op_skew] at hnew
    simp only [run_op, cpu_input_boost_kick_wake] at h
    exact kick_wake_keeps_deadline P fuel e c now skew b b2 hnew hC h
  | fb_event fuel skew c action blank =>
    simp only [op_skew] at hnew
    simp only [run_op, fb_notifier_cb] at h
    split at h
    · simp only [Option.map_some', Option.some.injEq] at h
      subst h
      exact hC
    · split at h
      · cases hkw : __cpu_input_boost_kick_wake fuel e c now skew b with
        | none => simp [hkw] at h
        | some b1 =>
          simp only [hkw, Option.map_some', Option.some.injEq] at h
          subst h
          exact kick_wake_keeps_deadline P fuel e c now skew b b1 hnew hC hkw
      · simp only [Option.map_some', Option.some.injEq] at h
        subst h
        exact hC
  | input_unboost_fire =>
    simp only [run_op, input_unboost_fire] at h
    split at h
    · injection h with h
      subst h
      exact hC
    · exact absurd h (by simp)
  | max_unboost_fire =>
    simp only [run_op, max_unboost_fire] at h
    split at h
    · injection h with h
      subst h
      intro hp
      simp [max_unboost_worker, wake_up] at hp
    · exact absurd h (by simp)

/-- A relation `P deadline expiry` of a pending max-unboost work holds along every
sequence of operations whose clock ticks all satisfy `Q`, when `P` holds of the pair
written by a max-boost update with such ticks. -/
theorem deadline_run_ops (P : Nat → Nat → Prop) (Q : Nat → Prop) (e : Env) (k : fb_codes)
    (hPQ : ∀ skew, Q skew →
      ∀ now j, P ((now + skew + j) % ULONG_MOD) ((now + j) % ULONG_MOD))
    (ops : List (Nat × driver_op)) :
    ∀ (b b2 : boost_drv),
      (∀ p ∈ ops, Q (op_skew p.2)) →
      (b.max_unboost.pending = true → P b.max_unboost.expires b.max_boost_expires) →
      run_ops e k ops b = some b2 →
      b2.max_unboost.pending = true → P b2.max_unboost.expires b2.max_boost_expires := by
  induction ops with
  | nil =>
    intro b b2 _ hC hrun
    simp only [run_ops, Option.some.injEq] at hrun
    subst hrun
    exact hC
  | cons hd rest ih =>
    intro b b2 hQ hC hrun
    obtain ⟨now, op⟩ := hd
    have hQ1 : Q (op_skew op) := hQ (now, op) (List.mem_cons_self _ _)
    have hQ2 : ∀ p ∈ rest, Q (op_skew p.2) := fun p hp => hQ p (List.mem_cons_of_mem _ hp)
    simp only [run_ops] at hrun
    cases hop : run_op e k now b op with
    | none => simp [hop] at hrun
    | some b1 =>
      simp only [hop] at hrun
      exact ih b1 b2 hQ2
        (deadline_step P e k now b b1 op (fun j => hPQ _ hQ1 now j) hC hop) hrun

/-- The operations of a sequence accepted by `ops_no_skew` have no clock tick between
their two readings. -/
theorem ops_no_skew_mem (ops : List (Nat × driver_op)) (h : ops_no_skew ops = true) :
    ∀ p ∈ ops, op_skew p.2 = 0 := by
  induction ops with
  | nil =>
    intro p hp
    simp at hp
  | cons hd rest ih =>
    obtain ⟨now, op⟩ := hd
    simp only [ops_no_skew, Bool.and_eq_true, beq_iff_eq] at h
    intro p hp
    rcases List.mem_cons.mp hp with hp | hp
    · subst hp
      exact h.1
    · exact ih h.2 p hp

/-- The operations of a sequence accepted by `ops_skew_bounded` have fewer than
`2 ^ 63` clock ticks between their two readings. -/
theorem ops_skew_bounded_mem (ops : List (Nat × driver_op))
    (h : ops_skew_bounded ops = true) : ∀ p ∈ ops, op_skew p.2 < LONG_SIGN := by
  induction ops with
  | nil =>
    intro p hp
    simp at hp
  | cons hd rest ih =>
    obtain ⟨now, op⟩ := hd
    simp only [ops_skew_bounded, Bool.and_eq_true, decide_eq_true_eq] at h
    intro p hp
    rcases List.mem_cons.mp hp with hp | hp
    · subst hp
      exact h.1
    · exact ih h.2 p hp

/-- An instant is not `time_after` the instant fewer than `2 ^ 63` ticks later, also
across the wrap of the 64-bit counter. -/
theorem time_after_skewed (now skew j : Nat) (hs : skew < LONG_SIGN) :
    time_after ((now + j) % ULONG_MOD) ((now + skew + j) % ULONG_MOD) = false := by
  simp only [LONG_SIGN] at hs
  simp only [time_after, ULONG_MOD, LONG_SIGN, decide_eq_false_iff_not]
  omega

/-- C20 as stated fails: `kick_max(200)` at tick 1000, with one clock tick between the
reading of `jiffies` for the candidate expiry and the arming of the delayed work,
stores the expiry 1200 and leaves the max-unboost work pending with deadline 1201. -/
theorem max_unboost_deadline_can_exceed_expiry :
    run_ops sample_env sample_fb_codes sample_ops_skew boost_drv_g
      = some sample_boosted_skew ∧
    sample_boosted_skew.max_unboost.pending = true ∧
    sample_boosted_skew.max_boost_expires = 1200 ∧
    sample_boosted_skew.max_unboost.expires = 1201 ∧
    sample_boosted_skew.max_unboost.expires ≠ sample_boosted_skew.max_boost_expires := by
  decide

/-- C20, amended: in every state reached from the initial state by a sequence of whole
operations, run one at a time, with the max-unboost work pending:
* if the clock never ticks between the two readings of `jiffies` inside an operation,
  the deadline of the work equals the stored `max_boost_expires` and the work cannot
  fire while the stored expiry is in the future (at any instants, wrapped or not);
* if fewer than `2 ^ 63` ticks pass between the two readings, the deadline is not
  earlier than the stored expiry in the kernel's wrapping order (at any instants);
* on every run timed by a forward clock the deadline is not earlier than the stored
  expiry as a number too, and the work does not fire before the stored expiry. -/
theorem max_unboost_deadline_not_before_expiry (e : Env) (k : fb_codes)
    (ops : List (Nat × driver_op)) (b : boost_drv)
    (hrun : run_ops e k ops boost_drv_g = some b)
    (hp : b.max_unboost.pending = true) :
    (ops_no_skew ops = true →
      b.max_unboost.expires = b.max_boost_expires ∧
      (∀ now b2, max_unboost_fire now b = some b2 →
        time_before now b.max_boost_expires = false)) ∧
    (ops_skew_bounded ops = true →
      time_before b.max_unboost.expires b.max_boost_expires = false) ∧
    (∀ t0, ops_timed e t0 ops = true →
      b.max_boost_expires ≤ b.max_unboost.expires ∧
      b.max_unboost.expires < LONG_SIGN ∧
      time_before b.max_unboost.expires b.max_boost_expires = false ∧
      (∀ now b2, now < LONG_SIGN → max_unboost_fire now b = some b2 →
        b.max_boost_expires ≤ now ∧ time_before now b.max_boost_expires = false)) := by
  refine ⟨?_, ?_, ?_⟩
  · intro hns
    have hdl : b.max_unboost.expires = b.max_boost_expires :=
      deadline_run_ops (fun dl ex => dl = ex) (fun skew => skew = 0) e k
        (fun skew hs now j => by subst hs; rfl) ops boost_drv_g b
        (ops_no_skew_mem ops hns) (by decide) hrun hp
    refine ⟨hdl, ?_⟩
    intro now b2 hfire
    simp only [max_unboost_fire] at hfire
    split at hfire
    · rename_i hdue
      simp only [delayed_work_due, Bool.and_eq_true, Bool.not_eq_true'] at hdue
      rw [← hdl]
      exact hdue.2
    · exact absurd hfire (by simp)
  · intro hsb
    exact deadline_run_ops (fun dl ex => time_before dl ex = false)
      (fun skew => skew < LONG_SIGN) e k
      (fun skew hs now j => time_after_skewed now skew j hs) ops boost_drv_g b
      (ops_skew_bounded_mem ops hsb) (by decide) hrun hp
  · intro t0 htimed
    have hinv := driver_inv_run_ops e k ops t0 boost_drv_g b (driver_inv_init t0) htimed hrun
    obtain ⟨_, _, hC, hD, _, _⟩ := hinv
    obtain ⟨hle, hfit⟩ := hC hp
    refine ⟨hle, hfit, ?_, ?_⟩
    · simp only [time_before]
      rw [time_after_eq_lt _ _ hD hfit]
      simpa using hle
    · intro now b2 hnow hfire
      simp only [max_unboost_fire] at hfire
      split at hfire
      · rename_i hdue
        simp only [delayed_work_due, Bool.and_eq_true, Bool.not_eq_true'] at hdue
        have h2 := hdue.2
        simp only [time_before] at h2
        rw [time_after_eq_lt _ _ hfit hnow] at h2
        have hdn : b.max_unboost.expires ≤ now := by simpa using h2
        have hen : b.max_boost_expires ≤ now := le_trans hle hdn
        refine ⟨hen, ?_⟩
        simp only [time_before]
        rw [time_after_eq_lt _ _ hD hnow]
        simpa using hen
      · exact absurd hfire (by simp)

/-- Witness for C20, amended: after `sample_ops_skew` (a timed run with one clock tick
inside the operation) the max-unboost work is pending with deadline 1201, not earlier
than the stored expiry 1200, as numbers and in the kernel's wrapping order. -/
theorem max_unboost_deadline_not_before_expiry_witness :
    (run_ops sample_env sample_fb_codes sample_ops_skew boost_drv_g
        = some sample_boosted_skew ∧
      sample_boosted_skew.max_unboost.pending = true ∧
      ops_skew_bounded sample_ops_skew = true ∧
      ops_timed sample_env 0 sample_ops_skew = true) ∧
    time_before sample_boosted_skew.max_unboost.expires
      sample_boosted_skew.max_boost_expires = false ∧
    sample_boosted_skew.max_boost_expires ≤ sample_boosted_skew.max_unboost.expires :=
  have h := max_unboost_deadline_not_before_expiry sample_env sample_fb_codes
    sample_ops_skew sample_boosted_skew (by decide) (by decide)
  ⟨by decide, h.2.1 (by decide), (h.2.2 0 (by decide)).1⟩

/-! ### Worker signalling -/

/-- C16, the code at the failing inputs. `sample_blanked` (state word 5, two wake-ups)
is reached by `sample_ops`. From it, a display unblank with a wake boost of 100 ms at
tick 1060 changes the state word to 12, the wake kick alone changes it to 13, and a
display unblank with the wake boost switched off changes it to 4; in all three cases
the wake-up count stays 2: the worker is not signalled. -/
theorem state_change_without_wake_up :
    run_ops sample_env sample_fb_codes sample_ops boost_drv_g = some sample_blanked ∧
    sample_blanked.state = 5 ∧ sample_blanked.boost_waitq = 2 ∧
    (fb_notifier_cb 1 sample_env sample_fb_codes sample_params_short_wake 1060 0
        sample_blanked 0x10 0).map (fun r => (r.2.state, r.2.boost_waitq)) = some (12, 2) ∧
    (cpu_input_boost_kick_wake 1 sample_env sample_params_short_wake 1060 0
        sample_blanked).map (fun b2 => (b2.state, b2.boost_waitq)) = some (13, 2) ∧
    (fb_notifier_cb 1 sample_env sample_fb_codes sample_params_no_wake 1060 0
        sample_blanked 0x10 0).map (fun r => (r.2.state, r.2.boost_waitq)) = some (4, 2) := by
  decide

/-! ### Initialisation -/

/-- An error pointer converts to a non-zero `int` error code. -/
theorem int_of_long_PTR_ERR_ne_zero (ptr : Nat) (hptr : ptr < ULONG_MOD)
    (herr : IS_ERR ptr = true) : int_of_long (PTR_ERR ptr) ≠ 0 := by
  simp only [ULONG_MOD] at hptr
  simp only [IS_ERR, ULONG_MOD, MAX_ERRNO, decide_eq_true_eq] at herr
  have hsign : LONG_SIGN ≤ ptr := by
    simp only [LONG_SIGN]
    omega
  simp only [int_of_long, PTR_ERR, hsign, if_true, ULONG_MOD]
  omega

/-- C17: `cpu_input_boost_init` on an empty registry. The calls are made in the order
cpufreq notifier, input handler, display client, worker thread. When step `k` fails
the call log is the attempts `1..k` followed by the unregistrations of steps
`k-1..1` in reverse order, nothing is registered on return and the result is the
failing step's error code, which is not zero. When all four steps succeed the result
is 0 and all three registrations and the thread exist. The result is 0 only in that
case. -/
theorem init_unwinds_in_reverse (o : init_outcomes) (hptr : o.thread < ULONG_MOD) :
    (o.ret_cpufreq ≠ 0 →
      cpu_input_boost_init o registry_empty
        = (o.ret_cpufreq,
           { registry_empty with calls := [init_call.cpufreq_register_notifier] })) ∧
    (o.ret_cpufreq = 0 → o.ret_input ≠ 0 →
      cpu_input_boost_init o registry_empty
        = (o.ret_input,
           { registry_empty with
             calls := [init_call.cpufreq_register_notifier,
                       init_call.input_register_handler,
                       init_call.cpufreq_unregister_notifier] })) ∧
    (o.ret_cpufreq = 0 → o.ret_input = 0 → o.ret_fb ≠ 0 →
      cpu_input_boost_init o registry_empty
        = (o.ret_fb,
           { registry_empty with
             calls := [init_call.cpufreq_register_notifier,
                       init_call.input_register_handler,
                       init_call.fb_register_client,
                       init_call.input_unregister_handler,
                       init_call.cpufreq_unregister_notifier] })) ∧
    (o.ret_cpufreq = 0 → o.ret_input = 0 → o.ret_fb = 0 → IS_ERR o.thread = true →
      cpu_input_boost_init o registry_empty
        = (int_of_long (PTR_ERR o.thread),
           { registry_empty with
             calls := [init_call.cpufreq_register_notifier,
                       init_call.input_register_handler,
                       init_call.fb_register_client,
                       init_call.kthread_run_perf_critical,
                       init_call.fb_unregister_client,
                       init_call.input_unregister_handler,
                       init_call.cpufreq_unregister_notifier] }) ∧
      int_of_long (PTR_ERR o.thread) ≠ 0) ∧
    (o.ret_cpufreq = 0 → o.ret_input = 0 → o.ret_fb = 0 → IS_ERR o.thread = false →
      cpu_input_boost_init o registry_empty
        = (0,
           { cpu_notif := true, input_handler := true, fb_notif := true, thread := true,
             calls := [init_call.cpufreq_register_notifier,
                       init_call.input_register_handler,
                       init_call.fb_register_client,
                       init_call.kthread_run_perf_critical] })) ∧
    ((cpu_input_boost_init o registry_empty).1 = 0 ↔
      (o.ret_cpufreq = 0 ∧ o.ret_input = 0 ∧ o.ret_fb = 0 ∧ IS_ERR o.thread = false)) := by
  have h1 : o.ret_cpufreq ≠ 0 →
      cpu_input_boost_init o registry_empty
        = (o.ret_cpufreq,
           { registry_empty with calls := [init_call.cpufreq_register_notifier] }) := by
    intro h
    simp [cpu_input_boost_init, cpufreq_register_notifier, registry_empty, h]
  have h2 : o.ret_cpufreq = 0 → o.ret_input ≠ 0 →
      cpu_input_boost_init o registry_empty
        = (o.ret_input,
           { registry_empty with
             calls := [init_call.cpufreq_register_notifier,
                       init_call.input_register_handler,
                       init_call.cpufreq_unregister_notifier] }) := by
    intro ha hb
    simp [cpu_input_boost_init, cpufreq_register_notifier, input_register_handler,
      cpufreq_unregister_notifier, registry_empty, ha, hb]
  have h3 : o.ret_cpufreq = 0 → o.ret_input = 0 → o.ret_fb ≠ 0 →
      cpu_input_boost_init o registry_empty
        = (o.ret_fb,
           { registry_empty with
             calls := [init_call.cpufreq_register_notifier,
                       init_call.input_register_handler,
                       init_call.fb_register_client,
                       init_call.input_unregister_handler,
                       init_call.cpufreq_unregister_notifier] }) := by
    intro ha hb hc
    simp [cpu_input_boost_init, cpufreq_register_notifier, input_register_handler,
      fb_register_client, cpufreq_unregister_notifier, input_unregister_handler,
      registry_empty, ha, hb, hc]
  have h4 : o.ret_cpufreq = 0 → o.ret_input = 0 → o.ret_fb = 0 → IS_ERR o.thread = true →
      cpu_input_boost_init o registry_empty
        = (int_of_long (PTR_ERR o.thread),
           { registry_empty with
             calls := [init_call.cpufreq_register_notifier,
                       init_call.input_register_handler,
                       init_call.fb_register_client,
                       init_call.kthread_run_perf_critical,
                       init_call.fb_unregister_client,
                       init_call.input_unregister_handler,
                       init_call.cpufreq_unregister_notifier] }) := by
    intro ha hb hc hd
    simp [cpu_input_boost_init, cpufreq_register_notifier, input_register_handler,
      fb_register_client, kthread_run_perf_critical, cpufreq_unregister_notifier,
      input_unregister_handler, fb_unregister_client, registry_empty, ha, hb, hc, hd]
  have h5 : o.ret_cpufreq = 0 → o.ret_input = 0 → o.ret_fb = 0 → IS_ERR o.thread = false →
      cpu_input_boost_init o registry_empty
        = (0,
           { cpu_notif := true, input_handler := true, fb_notif := true, thread := true,
             calls := [init_call.cpufreq_register_notifier,
                       init_call.input_register_handler,
                       init_call.fb_register_client,
                       init_call.kthread_run_perf_critical] }) := by
    intro ha hb hc hd
    simp [cpu_input_boost_init, cpufreq_register_notifier, input_register_handler,
      fb_register_client, kthread_run_perf_critical, registry_empty, ha, hb, hc, hd]
  refine ⟨h1, h2, h3, fun ha hb hc hd =>
    ⟨h4 ha hb hc hd, int_of_long_PTR_ERR_ne_zero o.thread hptr hd⟩, h5, ?_⟩
  constructor
  · intro hz
    by_cases ha : o.ret_cpufreq = 0
    · by_cases hb : o.ret_input = 0
      · by_cases hc : o.ret_fb = 0
        · cases hd : IS_ERR o.thread
          · exact ⟨ha, hb, hc, rfl⟩
          · rw [h4 ha hb hc hd] at hz
            exact absurd hz (int_of_long_PTR_ERR_ne_zero o.thread hptr hd)
        · rw [h3 ha hb hc] at hz
          exact absurd hz hc
      · rw [h2 ha hb] at hz
        exact absurd hz hb
    · rw [h1 ha] at hz
      exact absurd hz ha
  · rintro ⟨ha, hb, hc, hd⟩
    rw [h5 ha hb hc hd]

/-- Witness for C17: the worker thread fails to start with `-ENOMEM` after the three
registrations succeeded; all three are undone in reverse order and `-12` is returned. -/
theorem init_unwinds_in_reverse_witness :
    (sample_err_ptr < ULONG_MOD ∧ IS_ERR sample_err_ptr = true) ∧
    cpu_input_boost_init
        { ret_cpufreq := 0, ret_input := 0, ret_fb := 0, thread := sample_err_ptr }
        registry_empty
      = (-12,
         { registry_empty with
           calls := [init_call.cpufreq_register_notifier,
                     init_call.input_register_handler,
                     init_call.fb_register_client,
                     init_call.kthread_run_perf_critical,
                     init_call.fb_unregister_client,
                     init_call.input_unregister_handler,
                     init_call.cpufreq_unregister_notifier] }) :=
  ⟨by decide,
   ((init_unwinds_in_reverse
      { ret_cpufreq := 0, ret_input := 0, ret_fb := 0, thread := sample_err_ptr }
      (by decide)).2.2.2.1 rfl rfl rfl (by decide)).1.trans (by decide)⟩

/-! ### Boost against the unboosted floor -/

/-- C21 as stated fails, for a high-performance policy with
`cpuinfo.min_freq ≤ policy->max`, battery saver off and the screen on. With input
boost and remove floor configured as 0 the floor during `INPUT_BOOST` is 0, below the
unboosted floor `cpuinfo.min_freq = 936000`; with a remove floor of 2000000, above
`policy->max = 1768000`, the floor during `INPUT_BOOST` is 1768000, below the
unboosted floor 2000000. -/
theorem input_boost_can_lower_floor :
    (sample_env.is_battery_saver_on = false ∧
      sample_policy_hp.cpuinfo.min_freq ≤ sample_policy_hp.max ∧
      test_bit SCREEN_OFF 2 = false ∧ test_bit INPUT_BOOST 2 = true ∧
      test_bit MAX_BOOST 2 = false ∧ test_bit WAKE_BOOST 2 = false) ∧
    ((cpu_notifier_cb sample_env sample_params_zero_boost { boost_drv_g with state := 2 }
        sample_env.CPUFREQ_ADJUST sample_policy_hp).2.min = 0 ∧
      (cpu_notifier_cb sample_env sample_params_zero_boost boost_drv_g
        sample_env.CPUFREQ_ADJUST sample_policy_hp).2.min = 936000) ∧
    ((cpu_notifier_cb sample_env sample_params_high_remove { boost_drv_g with state := 2 }
        sample_env.CPUFREQ_ADJUST sample_policy_hp).2.min = 1768000 ∧
      (cpu_notifier_cb sample_env sample_params_high_remove boost_drv_g
        sample_env.CPUFREQ_ADJUST sample_policy_hp).2.min = 2000000) := by
  decide

/-- C21, amended: for a domain with `cpuinfo.min_freq ≤ policy->max`, battery saver
off and the screen on, the floor decided while only `INPUT_BOOST` is set is at least
the floor decided with no boost bit set exactly when the cluster's remove floor is
at most `policy->max` and `cpuinfo.min_freq` is at most the larger of the cluster's
input-boost frequency and remove floor. -/
theorem input_boost_elevates_floor_iff (e : Env) (c : Params) (b0 b1 : boost_drv)
    (policy : cpufreq_policy)
    (hsaver : e.is_battery_saver_on = false)
    (hbounds : policy.cpuinfo.min_freq ≤ policy.max)
    (hoff0 : test_bit SCREEN_OFF b0.state = false)
    (hinput0 : test_bit INPUT_BOOST b0.state = false)
    (hmax0 : test_bit MAX_BOOST b0.state = false)
    (hwake0 : test_bit WAKE_BOOST b0.state = false)
    (hoff1 : test_bit SCREEN_OFF b1.state = false)
    (hinput1 : test_bit INPUT_BOOST b1.state = true)
    (hmax1 : test_bit MAX_BOOST b1.state = false)
    (hwake1 : test_bit WAKE_BOOST b1.state = false) :
    ((cpu_notifier_cb e c b0 e.CPUFREQ_ADJUST policy).2.min
        ≤ (cpu_notifier_cb e c b1 e.CPUFREQ_ADJUST policy).2.min) ↔
      (cluster_remove_freq e c policy ≤ policy.max ∧
        policy.cpuinfo.min_freq
          ≤ max (cluster_input_boost_freq e c policy) (cluster_remove_freq e c policy)) := by
  cases hlp : cpumask_test_cpu policy.cpu e.cpu_lp_mask <;>
    simp [cpu_notifier_cb, get_input_boost_freq, get_min_freq, cluster_remove_freq,
      cluster_input_boost_freq, hsaver, hoff0, hinput0, hmax0, hwake0, hoff1, hinput1,
      hmax1, hwake1, hlp] <;>
    omega

/-- Witness for C21 (amended): with the sample parameters the conditions hold for the
high-performance sample policy, and the boosted floor 1560000 is above the unboosted
floor 1040000. -/
theorem input_boost_elevates_floor_iff_witness :
    (sample_env.is_battery_saver_on = false ∧
      sample_policy_hp.cpuinfo.min_freq ≤ sample_policy_hp.max ∧
      test_bit SCREEN_OFF 2 = false ∧ test_bit INPUT_BOOST 2 = true ∧
      test_bit MAX_BOOST 2 = false ∧ test_bit WAKE_BOOST 2 = false ∧
      cluster_remove_freq sample_env sample_params sample_policy_hp ≤ sample_policy_hp.max ∧
      sample_policy_hp.cpuinfo.min_freq
        ≤ max (cluster_input_boost_freq sample_env sample_params sample_policy_hp)
            (cluster_remove_freq sample_env sample_params sample_policy_hp)) ∧
    (cpu_notifier_cb sample_env sample_params boost_drv_g
        sample_env.CPUFREQ_ADJUST sample_policy_hp).2.min
      ≤ (cpu_notifier_cb sample_env sample_params { boost_drv_g with state := 2 }
        sample_env.CPUFREQ_ADJUST sample_policy_hp).2.min :=
  ⟨by decide,
   (input_boost_elevates_floor_iff sample_env sample_params boost_drv_g
      { boost_drv_g with state := 2 } sample_policy_hp rfl (by decide) (by decide)
      (by decide) (by decide) (by decide) (by decide) (by decide) (by decide)
      (by decide)).2 (by decide)⟩

/-! ### No stuck boost -/

/-- `__cpu_input_boost_kick_max` keeps the max-unboost work pending exactly when
`MAX_BOOST` is set, and leaves the input side alone, at any time. -/
theorem kick_max_keeps_pending (fuel : Nat) (e : Env) (now skew : Nat) (b b2 : boost_drv)
    (d : Nat)
    (hA : b.max_unboost.pending = test_bit MAX_BOOST b.state)
    (hF : b.input_unboost.pending = test_bit INPUT_BOOST b.state)
    (h : __cpu_input_boost_kick_max fuel e now skew b d = some b2) :
    b2.max_unboost.pending = test_bit MAX_BOOST b2.state ∧
    b2.input_unboost.pending = test_bit INPUT_BOOST b2.state := by
  rcases kick_max_cases fuel e now skew b b2 d h with ⟨_, hb2⟩ | ⟨_, hb2⟩
  · subst hb2
    exact ⟨hA, hF⟩
  · subst hb2
    refine ⟨?_, ?_⟩
    · simp [test_bit_set_bit]
    · simpa [test_bit_set_bit, INPUT_BOOST, MAX_BOOST] using hF

/-- `__cpu_input_boost_kick_wake` keeps each unboost work pending exactly when its
boost bit is set, at any time. -/
theorem kick_wake_keeps_pending (fuel : Nat) (e : Env) (c : Params) (now skew : Nat)
    (b b2 : boost_drv)
    (hA : b.max_unboost.pending = test_bit MAX_BOOST b.state)
    (hF : b.input_unboost.pending = test_bit INPUT_BOOST b.state)
    (h : __cpu_input_boost_kick_wake fuel e c now skew b = some b2) :
    b2.max_unboost.pending = test_bit MAX_BOOST b2.state ∧
    b2.input_unboost.pending = test_bit INPUT_BOOST b2.state := by
  simp only [__cpu_input_boost_kick_wake] at h
  split at h
  · injection h with h
    subst h
    exact ⟨hA, hF⟩
  · split at h
    · injection h with h
      subst h
      exact ⟨hA, hF⟩
    · refine kick_max_keeps_pending fuel e now skew
        { b with state := set_bit WAKE_BOOST b.state } b2 c.wake_boost_duration ?_ ?_ h
      · simpa [test_bit_set_bit, WAKE_BOOST, MAX_BOOST] using hA
      · simpa [test_bit_set_bit, WAKE_BOOST, INPUT_BOOST] using hF

/-- Every operation, run at any time, keeps each unboost work pending exactly when
its boost bit is set. -/
theorem pending_step (e : Env) (k : fb_codes) (now : Nat) (b b2 : boost_drv)
    (op : driver_op)
    (hA : b.max_unboost.pending = test_bit MAX_BOOST b.state)
    (hF : b.input_unboost.pending = test_bit INPUT_BOOST b.state)
    (h : run_op e k now b op = some b2) :
    b2.max_unboost.pending = test_bit MAX_BOOST b2.state ∧
    b2.input_unboost.pending = test_bit INPUT_BOOST b2.state := by
  cases op with
  | kick_input c =>
    simp only [run_op, cpu_input_boost_kick, Option.some.injEq] at h
    subst h
    obtain ⟨h1, _, h3, _, h5⟩ := kick_input_frame e c now b hF
    exact ⟨by rw [h1, h3]; exact hA, h5⟩
  | input_event c =>
    simp only [run_op, cpu_input_boost_input_event, Option.some.injEq] at h
    subst h
    obtain ⟨h1, _, h3, _, h5⟩ := kick_input_frame e c now b hF
    refine ⟨?_, ?_⟩
    · show (__cpu_input_boost_kick e c now b).max_unboost.pending
        = test_bit MAX_BOOST (__cpu_input_boost_kick e c now b).state
      rw [h1, h3]
      exact hA
    · exact h5
  | kick_max fuel skew d =>
    simp only [run_op, cpu_input_boost_kick_max] at h
    split at h
    · injection h with h
      subst h
      exact ⟨hA, hF⟩
    · exact kick_max_keeps_pending fuel e now skew b b2 d hA hF h
  | kick_wake fuel skew c =>
    simp only [run_op, cpu_input_boost_kick_wake] at h
    exact kick_wake_keeps_pending fuel e c now skew b b2 hA hF h
  | fb_event fuel skew c action blank =>
    simp only [run_op, fb_notifier_cb] at h
    split at h
    · simp only [Option.map_some', Option.some.injEq] at h
      subst h
      exact ⟨hA, hF⟩
    · split at h
      · cases hkw : __cpu_input_boost_kick_wake fuel e c now skew b with
        | none => simp [hkw] at h
        | some b1 =>
          simp only [hkw, Option.map_some', Option.some.injEq] at h
          subst h
          obtain ⟨hA1, hF1⟩ := kick_wake_keeps_pending fuel e c now skew b b1 hA hF hkw
          refine ⟨?_, ?_⟩
          · simpa [test_bit_clear_bit, SCREEN_OFF, MAX_BOOST] using hA1
          · simpa [test_bit_clear_bit, SCREEN_OFF, INPUT_BOOST] using hF1
      · simp only [Option.map_some', Option.some.injEq] at h
        subst h
        refine ⟨?_, ?_⟩
        · simpa [wake_up, test_bit_set_bit, SCREEN_OFF, MAX_BOOST] using hA
        · simpa [wake_up, test_bit_set_bit, SCREEN_OFF, INPUT_BOOST] using hF
  | input_unboost_fire =>
    simp only [run_op, input_unboost_fire] at h
    split at h
    · injection h with h
      subst h
      refine ⟨?_, ?_⟩
      · simpa [input_unboost_worker, wake_up, test_bit_clear_bit, INPUT_BOOST, MAX_BOOST]
          using hA
      · simp [input_unboost_worker, wake_up, test_bit_clear_bit]
    · exact absurd h (by simp)
  | max_unboost_fire =>
    simp only [run_op, max_unboost_fire] at h
    split at h
    · injection h with h
      subst h
      refine ⟨?_, ?_⟩
      · simp [max_unboost_worker, wake_up, test_bit_clear_bit, MAX_BOOST, WAKE_BOOST]
      · simpa [max_unboost_worker, wake_up, test_bit_clear_bit, MAX_BOOST, WAKE_BOOST,
          INPUT_BOOST] using hF
    · exact absurd h (by simp)

/-- Along every sequence of operations each unboost work stays pending exactly when
its boost bit is set. -/
theorem pending_run_ops (e : Env) (k : fb_codes) (ops : List (Nat × driver_op)) :
    ∀ (b b2 : boost_drv),
      b.max_unboost.pending = test_bit MAX_BOOST b.state →
      b.input_unboost.pending = test_bit INPUT_BOOST b.state →
      run_ops e k ops b = some b2 →
      b2.max_unboost.pending = test_bit MAX_BOOST b2.state ∧
      b2.input_unboost.pending = test_bit INPUT_BOOST b2.state := by
  induction ops with
  | nil =>
    intro b b2 hA hF hrun
    simp only [run_ops, Option.some.injEq] at hrun
    subst hrun
    exact ⟨hA, hF⟩
  | cons hd rest ih =>
    intro b b2 hA hF hrun
    obtain ⟨now, op⟩ := hd
    simp only [run_ops] at hrun
    cases hop : run_op e k now b op with
    | none => simp [hop] at hrun
    | some b1 =>
      simp only [hop] at hrun
      obtain ⟨hA1, hF1⟩ := pending_step e k now b b1 op hA hF hop
      exact ih b1 b2 hA1 hF1 hrun

/-- C24: no stuck boost. In every state reached from the initial state by a sequence
of whole operations, `INPUT_BOOST` set means the input-unboost work is pending and
`MAX_BOOST` set means the max-unboost work is pending; when the sequence is timed (the
clock does not go back, timers fire when due) `WAKE_BOOST` set also means the
max-unboost work is pending. A pending work can fire at its deadline, and its fire
clears the bits it stands for. -/
theorem no_stuck_boost (e : Env) (k : fb_codes) (t0 : Nat)
    (ops : List (Nat × driver_op)) (b : boost_drv)
    (hrun : run_ops e k ops boost_drv_g = some b) :
    (test_bit INPUT_BOOST b.state = true → b.input_unboost.pending = true) ∧
    (test_bit MAX_BOOST b.state = true → b.max_unboost.pending = true) ∧
    (ops_timed e t0 ops = true → test_bit WAKE_BOOST b.state = true →
      b.max_unboost.pending = true) ∧
    (b.input_unboost.pending = true →
      ∃ b2, input_unboost_fire b.input_unboost.expires b = some b2 ∧
        test_bit INPUT_BOOST b2.state = false) ∧
    (b.max_unboost.pending = true →
      ∃ b2, max_unboost_fire b.max_unboost.expires b = some b2 ∧
        test_bit MAX_BOOST b2.state = false ∧ test_bit WAKE_BOOST b2.state = false) := by
  obtain ⟨hA, hF⟩ := pending_run_ops e k ops boost_drv_g b (by decide) (by decide) hrun
  refine ⟨?_, ?_, ?_, ?_, ?_⟩
  · intro h
    rw [hF]
    exact h
  · intro h
    rw [hA]
    exact h
  · intro htimed hwake
    have hinv := driver_inv_run_ops e k ops t0 boost_drv_g b (driver_inv_init t0) htimed hrun
    rw [hA]
    exact hinv.2.1 hwake
  · intro hp
    refine ⟨_, input_unboost_fire_at_deadline b hp, ?_⟩
    simp [input_unboost_worker, wake_up, test_bit_clear_bit]
  · intro hp
    refine ⟨_, max_unboost_fire_at_deadline b hp, ?_, ?_⟩
    · simp [max_unboost_worker, wake_up, test_bit_clear_bit, MAX_BOOST, WAKE_BOOST]
    · simp [max_unboost_worker, wake_up, test_bit_clear_bit]

/-- Witness for C24: after `sample_ops_wake` the state word is 13 (`SCREEN_OFF`,
`MAX_BOOST`, `WAKE_BOOST`) and the max-unboost work is pending. -/
theorem no_stuck_boost_witness :
    (run_ops sample_env sample_fb_codes sample_ops_wake boost_drv_g = some sample_woken ∧
      ops_timed sample_env 0 sample_ops_wake = true ∧
      test_bit MAX_BOOST sample_woken.state = true ∧
      test_bit WAKE_BOOST sample_woken.state = true) ∧
    sample_woken.max_unboost.pending = true ∧
    sample_woken.max_unboost.pending = true :=
  have h := no_stuck_boost sample_env sample_fb_codes 0 sample_ops_wake sample_woken
    (by decide)
  ⟨by decide, h.2.1 (by decide), h.2.2.1 (by decide) (by decide)⟩

end CpuInputBoost

namespace ExynosUfc

/-! ## Theorems on the user frequency control -/

/-- With a negative input and neither `set_limit` nor `set_max` set, the loop body of
`cpufreq_max_limit_update` enables the domain's CPUs and requests the domain's own
`max_freq`. -/
theorem max_limit_body_clear (e : ufc_env) (sse_mode input_freq : Int) (i : Nat)
    (d : exynos_cpufreq_domain) (v : ufc_loop) (hneg : input_freq < 0)
    (hsl : v.set_limit = false) (hsm : v.set_max = false) :
    max_limit_body e sse_mode input_freq i d v =
      ({ d with user_max_qos_req := d.max_freq },
        log_qos (qos_target.user_max d.id) d.max_freq
          (enable_domain_cpus e (i == 0) d { v with scale := v.scale + 1 })) := by
  simp [max_limit_body, hsl, hsm, hneg]

/-- The loop of `cpufreq_max_limit_update` with a negative input, on any list of
domains. -/
theorem max_limit_loop_clear (e : ufc_env) (sse_mode input_freq : Int)
    (hneg : input_freq < 0) (ds : List exynos_cpufreq_domain) :
    ∀ (i : Nat) (v : ufc_loop), v.set_limit = false → v.set_max = false →
      (for_each_domain_reverse (max_limit_body e sse_mode input_freq) i ds v).1
          = ds.map (fun d => { d with user_max_qos_req := d.max_freq }) ∧
      (for_each_domain_reverse (max_limit_body e sse_mode input_freq) i ds v).2.set_limit
          = false ∧
      (for_each_domain_reverse (max_limit_body e sse_mode input_freq) i ds v).2.set_max
          = false ∧
      (for_each_domain_reverse (max_limit_body e sse_mode input_freq) i ds v).2.qos_log
          = v.qos_log ++ clear_max_limit_log e i ds ∧
      (for_each_domain_reverse (max_limit_body e sse_mode input_freq) i ds
          v).2.cpu_online_max_qos_req
          = clear_max_limit_online e v.cpu_online_max_qos_req i ds ∧
      (for_each_domain_reverse (max_limit_body e sse_mode input_freq) i ds v).2.hmp_boost
          = v.hmp_boost ∧
      (for_each_domain_reverse (max_limit_body e sse_mode input_freq) i ds v).2.compared
          = v.compared := by
  induction ds with
  | nil =>
    intro i v hsl hsm
    simp [for_each_domain_reverse, clear_max_limit_log, clear_max_limit_online, hsl, hsm]
  | cons d rest ih =>
    intro i v hsl hsm
    obtain ⟨h1, h2, h3, h4, h5, h6, h7⟩ := ih (i + 1) v hsl hsm
    simp only [for_each_domain_reverse]
    rw [max_limit_body_clear e sse_mode input_freq i d _ hneg h2 h3]
    by_cases hi : i = 0
    · subst hi
      simp [enable_domain_cpus, log_qos, clear_max_limit_log, clear_max_limit_online,
        h1, h2, h3, h4, h5, h6, h7]
    · simp [enable_domain_cpus, log_qos, clear_max_limit_log, clear_max_limit_online,
        h1, h2, h3, h4, h6, h7, hi]

/-- C23: clearing the max limit. For every state (domain list, limit tables,
`sse_mode`) and every negative input, `cpufreq_max_limit_update` leaves every domain
with `user_max_qos_req` equal to its own `max_freq` and nothing else changed in it;
the `pm_qos_update_request` calls are, from the last domain to the first,
`enable_domain_cpus` for every domain but the first followed by the domain's
`max_freq`; no other part of the state changes. -/
theorem max_limit_clear_restores_every_domain (e : ufc_env) (input_freq : Int)
    (s : ufc_state) (hneg : input_freq < 0) :
    (cpufreq_max_limit_update e input_freq s).domains
      = s.domains.map (fun d => { d with user_max_qos_req := d.max_freq }) ∧
    (cpufreq_max_limit_update e input_freq s).qos_log
      = s.qos_log ++ clear_max_limit_log e 0 s.domains ∧
    (cpufreq_max_limit_update e input_freq s).cpu_online_max_qos_req
      = (match s.domains with
         | _ :: d1 :: _ => cpumask_weight e (e.early_cpu_mask ||| d1.cpus)
         | _ => s.cpu_online_max_qos_req) ∧
    (cpufreq_max_limit_update e input_freq s).ufc_req = s.ufc_req ∧
    (cpufreq_max_limit_update e input_freq s).last_max_limit = s.last_max_limit ∧
    (cpufreq_max_limit_update e input_freq s).sse_mode = s.sse_mode ∧
    (cpufreq_max_limit_update e input_freq s).hmp_boost = s.hmp_boost ∧
    (cpufreq_max_limit_update e input_freq s).compared = s.compared := by
  obtain ⟨h1, _, _, h4, h5, h6, h7⟩ :=
    max_limit_loop_clear e s.sse_mode input_freq hneg s.domains 0 (loop_entry e s) rfl rfl
  refine ⟨?_, ?_, ?_, rfl, rfl, rfl, ?_, ?_⟩
  · simpa [cpufreq_max_limit_update, loop_exit] using h1
  · simpa [cpufreq_max_limit_update, loop_exit, loop_entry] using h4
  · have h : (cpufreq_max_limit_update e input_freq s).cpu_online_max_qos_req
        = clear_max_limit_online e s.cpu_online_max_qos_req 0 s.domains := by
      simpa [cpufreq_max_limit_update, loop_exit, loop_entry] using h5
    rw [h]
    generalize s.domains = ds
    cases ds with
    | nil => simp [clear_max_limit_online]
    | cons d0 rest =>
      cases rest with
      | nil => simp [clear_max_limit_online]
      | cons d1 rest2 => simp [clear_max_limit_online]
  · simpa [cpufreq_max_limit_update, loop_exit, loop_entry] using h6
  · simpa [cpufreq_max_limit_update, loop_exit, loop_entry] using h7

/-- Witness for C23: input -1 on the sample state after a max limit of 300000 was
stored: both domains are back at their own `max_freq`. -/
theorem max_limit_clear_restores_every_domain_witness :
    ((-1 : Int) < 0) ∧
    ((cpufreq_max_limit_update sample_ufc_env 300000 sample_ufc_state).domains.map
        (fun d => d.user_max_qos_req) = [1200000, 0]) ∧
    ((cpufreq_max_limit_update sample_ufc_env (-1)
        (cpufreq_max_limit_update sample_ufc_env 300000 sample_ufc_state)).domains.map
        (fun d => d.user_max_qos_req) = [1586000, 1768000]) :=
  ⟨by decide, by decide,
   (congrArg (List.map (fun d => d.user_max_qos_req))
      (max_limit_clear_restores_every_domain sample_ufc_env (-1)
        (cpufreq_max_limit_update sample_ufc_env 300000 sample_ufc_state)
        (by decide)).1).trans (by decide)⟩

/-- `control_hmp_boost` does not touch the loop variable `scale`. -/
theorem control_hmp_boost_scale (e : ufc_env) (enable : Bool) (v : ufc_loop) :
    (control_hmp_boost e enable v).scale = v.scale := by
  unfold control_hmp_boost
  repeat' split
  all_goals rfl

/-- The loop body of `store_cpufreq_min_limit` increments `scale` only for a domain
that has an online CPU with a policy. -/
theorem min_limit_body_scale (e : ufc_env) (sse_mode input : Int) (n i : Nat)
    (d : exynos_cpufreq_domain) (v : ufc_loop) :
    (min_limit_body e sse_mode input n i d v).2.scale
      = v.scale + (if domain_eligible e d then 1 else 0) := by
  by_cases hw : cpumask_weight e (d.cpus &&& e.cpu_online_mask) = 0
  · simp [min_limit_body, domain_eligible, hw]
  · by_cases hp : e.cpufreq_cpu_get_raw (e.cpumask_any (d.cpus &&& e.cpu_online_mask)) = true
    · have helig : domain_eligible e d = true := by simp [domain_eligible, hw, hp]
      rw [helig, if_pos rfl]
      unfold min_limit_body
      simp only [hw, hp, beq_iff_eq, if_false, Bool.not_true, Bool.false_eq_true]
      repeat' split
      all_goals simp [log_qos, control_hmp_boost_scale]
    · simp [min_limit_body, domain_eligible, hw, hp]

/-- The loop of `store_cpufreq_min_limit` raises `scale` by the number of domains that
have an online CPU with a policy. -/
theorem min_limit_loop_scale (e : ufc_env) (sse_mode input : Int) (n : Nat)
    (ds : List exynos_cpufreq_domain) :
    ∀ (i : Nat) (v : ufc_loop),
      (for_each_domain_reverse (min_limit_body e sse_mode input n) i ds v).2.scale
        = v.scale + ((ds.filter (domain_eligible e)).length : Int) := by
  induction ds with
  | nil =>
    intro i v
    simp [for_each_domain_reverse]
  | cons d rest ih =>
    intro i v
    simp only [for_each_domain_reverse]
    rw [min_limit_body_scale, ih (i + 1) v]
    cases h : domain_eligible e d
    · simp [List.filter, h]
    · simp [List.filter, h]
      omega

/-- The loop body of `cpufreq_max_limit_update` increments `scale` for every domain
on which it runs to the end or leaves by an update. -/
theorem max_limit_body_scale (e : ufc_env) (sse_mode input_freq : Int) (i : Nat)
    (d : exynos_cpufreq_domain) (v : ufc_loop) :
    (max_limit_body e sse_mode input_freq i d v).2.scale = v.scale + 1 := by
  unfold max_limit_body max_limit_apply enable_domain_cpus disable_domain_cpus
  simp only []
  repeat' split
  all_goals simp [log_qos]

/-- The loop of `cpufreq_max_limit_update` raises `scale` by the number of domains,
online or not. -/
theorem max_limit_loop_scale (e : ufc_env) (sse_mode input_freq : Int)
    (ds : List exynos_cpufreq_domain) :
    ∀ (i : Nat) (v : ufc_loop),
      (for_each_domain_reverse (max_limit_body e sse_mode input_freq) i ds v).2.scale
        = v.scale + (ds.length : Int) := by
  induction ds with
  | nil =>
    intro i v
    simp [for_each_domain_reverse]
  | cons d rest ih =>
    intro i v
    simp only [for_each_domain_reverse]
    rw [max_limit_body_scale, ih (i + 1) v]
    simp only [List.length_cons, Nat.cast_add, Nat.cast_one]
    omega

/-- C22, the code against the claim. In `store_cpufreq_min_limit` the loop variable
`scale` is raised only by domains that have an online CPU with a policy, while in
`cpufreq_max_limit_update` it is raised by every domain. On the sample platform with
both domains online, input 300000 is compared as 300000 in domain 1 and as
`300000 * 4 = 1200000` in domain 0, whose request becomes 1200000. With the CPUs of
domain 1 offline the same input is compared as 300000 in domain 0, position 1 of the
traversal, and its request becomes 0; `cpufreq_max_limit_update` still scales the
same input to 1200000 for domain 0. -/
theorem min_limit_scale_depends_on_online_cpus :
    (∀ (e : ufc_env) (sse_mode input : Int) (n : Nat) (ds : List exynos_cpufreq_domain)
        (i : Nat) (v : ufc_loop),
      (for_each_domain_reverse (min_limit_body e sse_mode input n) i ds v).2.scale
        = v.scale + ((ds.filter (domain_eligible e)).length : Int)) ∧
    (∀ (e : ufc_env) (sse_mode input_freq : Int) (ds : List exynos_cpufreq_domain)
        (i : Nat) (v : ufc_loop),
      (for_each_domain_reverse (max_limit_body e sse_mode input_freq) i ds v).2.scale
        = v.scale + (ds.length : Int)) ∧
    (store_cpufreq_min_limit sample_ufc_env (some 300000) 7 sample_ufc_state).2.compared
      = [(1, 300000), (0, 1200000)] ∧
    (store_cpufreq_min_limit sample_ufc_env (some 300000) 7 sample_ufc_state).2.domains.map
        (fun d => d.user_min_qos_req) = [1200000, 0] ∧
    (store_cpufreq_min_limit sample_ufc_env_hp_offline (some 300000) 7
        sample_ufc_state).2.compared = [(0, 300000)] ∧
    (store_cpufreq_min_limit sample_ufc_env_hp_offline (some 300000) 7
        sample_ufc_state).2.domains.map (fun d => d.user_min_qos_req) = [0, 936000] ∧
    (cpufreq_max_limit_update sample_ufc_env_hp_offline 300000 sample_ufc_state).domains.map
        (fun d => d.user_max_qos_req) = [1200000, 0] :=
  ⟨fun e sse_mode input n ds i v => min_limit_loop_scale e sse_mode input n ds i v,
   fun e sse_mode input_freq ds i v => max_limit_loop_scale e sse_mode input_freq ds i v,
   by decide, by decide, by decide, by decide, by decide⟩

/-- In `store_cpufreq_min_limit_wo_boost`, an iteration entered with `set_limit` set
on a domain that has an online CPU with a policy writes the limit to
`user_min_qos_req` and leaves `user_min_qos_wo_boost_req` as it was. -/
theorem wo_boost_body_set_limit (e : ufc_env) (sse_mode input : Int) (i : Nat)
    (d : exynos_cpufreq_domain) (v : ufc_loop) (helig : domain_eligible e d = true)
    (hsl : v.set_limit = true) :
    (min_limit_wo_boost_body e sse_mode input i d v).1
      = { d with
          user_min_qos_req := min v.req_limit_freq (e.cal_dfs_get_max_freq d.cal_id) } := by
  simp only [domain_eligible, Bool.and_eq_true, bne_iff_ne, ne_eq] at helig
  simp [min_limit_wo_boost_body, helig.1, helig.2, hsl]

/-- C25, the code against the claim: in `store_cpufreq_min_limit_wo_boost` the
iteration that follows a domain with a limit table (`set_limit`) writes
`user_min_qos_req` (see `wo_boost_body_set_limit`). On the sample platform, input 1000000 sets the without-boost
request of domain 1 to 1000000 and then changes `user_min_qos_req` of domain 0 from
449000 to 1352000, the limit of the table; the without-boost request of domain 0
stays 449000. -/
theorem wo_boost_store_writes_user_min_qos_req :
    sample_ufc_state.domains.map (fun d => d.user_min_qos_req) = [449000, 936000] ∧
    (store_cpufreq_min_limit_wo_boost sample_ufc_env (some 1000000) 8
        sample_ufc_state).2.domains.map (fun d => d.user_min_qos_req)
      = [1352000, 936000] ∧
    (store_cpufreq_min_limit_wo_boost sample_ufc_env (some 1000000) 8
        sample_ufc_state).2.domains.map (fun d => d.user_min_qos_wo_boost_req)
      = [449000, 1000000] ∧
    (store_cpufreq_min_limit_wo_boost sample_ufc_env (some 1000000) 8
        sample_ufc_state).2.qos_log
      = [{ target := qos_target.user_min_wo_boost 1, value := 1000000 },
         { target := qos_target.user_min 0, value := 1352000 }] :=
  ⟨by decide, by decide, by decide, by decide⟩

end ExynosUfc
